import Mathlib

/-!
# Open3D `TensorHash`, `Unique` and `TensorKey`: a shallow embedding

Sources: `src/Open3D/Core/Hashmap/TensorHash.cpp` (the Hash Index facade and
`Unique`) and `cpp/open3d/core/TensorKey.{h,cpp}`.

The facade validates caller-supplied tensors and forwards to a hash-table
backend.  The array runtime (`Tensor`, `Device`, `Dtype`), the allocator
(`MemoryManager`) and the backend (`hashmap_`) are not part of the sources;
their observable interface is modelled below and the backend itself is a
parameter (`BackendOps`), so every statement about the facade holds for any
backend.  Where a statement depends on what the backend stores, the backend of
the specification (`SpecBackend`) is used.

* C++ exceptions (`utility::LogError` throws) are the `raised` outcome.
* Reading a `SizeVector` past its end is the `undefined` outcome.
* The object state (`TensorHash`) and the history of external calls
  (`List Call`) are passed explicitly and returned next to the outcome, so
  that what a call did before it raised stays visible.
-/

namespace open3d

/-! ## The array runtime -/

/-- Modelled from the spec: the kind of a device of the array runtime ("host
memory or accelerator memory"); `Device::GetType()` returns it. The class
`Device` is not among the sources. -/
inductive DeviceType where
  | CPU
  | CUDA
  deriving DecidableEq, Repr

/-- Modelled from the spec: the "device identifier" of an array, a device kind
together with the number of the device of that kind. -/
structure Device where
  device_type_ : DeviceType
  device_id_ : Nat
  deriving DecidableEq, Repr

/-- `Device::GetType()`. -/
def Device.GetType (d : Device) : DeviceType := d.device_type_

/-- Modelled from the spec: the "element-type tag" of an array. The source names
`Dtype::Int64`, `Dtype::Bool` and `Dtype::UInt8`; the enumeration itself is not
among the sources. -/
inductive Dtype where
  | Undefined
  | Float32
  | Float64
  | Int32
  | Int64
  | UInt8
  | Bool
  deriving DecidableEq, Repr

/-- `SizeVector`: a vector of `int64_t` extents; the array runtime keeps them
non-negative, so they are natural numbers here. -/
abbrev SizeVector := List Nat

/-- Modelled from the spec: the multi-dimensional array abstraction "exposing
shape, element-type tag, device identifier, contiguity flag, and raw byte
access". `blob` is the raw byte buffer behind `GetBlob()->GetDataPtr()`. -/
structure Tensor where
  shape_ : SizeVector
  dtype_ : Dtype
  device_ : Device
  contiguous_ : Bool
  blob : List Nat
  deriving DecidableEq, Repr

/-- `Tensor::GetShape()`. -/
def Tensor.GetShape (t : Tensor) : SizeVector := t.shape_

/-- `Tensor::GetDtype()`. -/
def Tensor.GetDtype (t : Tensor) : Dtype := t.dtype_

/-- `Tensor::GetDevice()`. -/
def Tensor.GetDevice (t : Tensor) : Device := t.device_

/-- `Tensor::IsContiguous()`. -/
def Tensor.IsContiguous (t : Tensor) : Bool := t.contiguous_

/-- Constants of the build that the source uses and does not define:
`DtypeUtil::ByteSize`, the macro `MAX_KEY_BYTESIZE` and `sizeof(iterator_t)`. -/
structure Env where
  ByteSize : Dtype → Nat
  MAX_KEY_BYTESIZE : Nat
  sizeof_iterator_t : Nat

/-- Width of `size_t` and of `int64_t` products converted to it. -/
def SIZE_MOD : Nat := 2 ^ 64

/-- `sizeof(bool)`. -/
def sizeof_bool : Nat := 1

/-- `SizeVector::NumElements()`: the product of the extents. -/
def NumElements (shape : SizeVector) : Nat := shape.foldl (fun acc d => acc * d) 1

/-- `Tensor(shape, dtype, device)`: a fresh contiguous tensor; its buffer, not
initialised by the constructor, is shown as zero bytes. -/
def Tensor.New (env : Env) (shape : SizeVector) (dtype : Dtype) (device : Device) : Tensor :=
  { shape_ := shape, dtype_ := dtype, device_ := device, contiguous_ := true,
    blob := List.replicate (NumElements shape * env.ByteSize dtype) 0 }

/-! ## Errors and outcomes -/

/-- The error taxonomy of the specification (section 7). -/
inductive ErrorKind where
  | DeviceMismatch
  | InvalidLayout
  | ShapeMismatch
  | EmptyInput
  | KeyTooLarge
  | CapacityExceeded
  | TypeMismatch
  | InvalidArgument
  | OutOfMemory
  deriving DecidableEq, Repr

/-- The messages `TensorHash.cpp` passes to `utility::LogError`, one constructor
per distinct message text. -/
inductive Message where
  /-- Text "TensorHash::Input tensors device mismatch." -/
  | InputDeviceMismatch
  /-- Text "TensorHash::Input tensors must be contiguous." -/
  | NotContiguous
  /-- Text "TensorHash::Input coords shape must be (N, D)." -/
  | CoordsShapeNotND
  /-- Text "TensorHash::Input coords and values size mismatch." -/
  | SizeMismatch
  /-- Text "TensorHash::Unsupported key size: at most MAX bytes per key is
  supported, received KEY_SIZE bytes per key", with the two numbers. -/
  | UnsupportedKeySize (max received : Nat)
  /-- Text "TensorHash::Input tensors and hashmap device mismatch." -/
  | HashmapDeviceMismatch
  /-- Text "TensorHash::Input key/value type mismatch." -/
  | KeyValueTypeMismatch
  /-- Text "TensorHash::Input coords key type mismatch." -/
  | KeyTypeMismatch
  /-- Text "TensorHash::Inputs are empty tensors" -/
  | EmptyTensors
  /-- Text "TensorHash::Input coords shape mismatch." -/
  | CoordsShapeMismatch
  /-- Text "TensorHash::Input values shape mismatch." -/
  | ValuesShapeMismatch
  deriving DecidableEq, Repr

/-- The kind of the specification's taxonomy that each message reports. -/
def Message.kind : Message → ErrorKind
  | .InputDeviceMismatch => .DeviceMismatch
  | .NotContiguous => .InvalidLayout
  | .CoordsShapeNotND => .ShapeMismatch
  | .SizeMismatch => .ShapeMismatch
  | .UnsupportedKeySize _ _ => .KeyTooLarge
  | .HashmapDeviceMismatch => .DeviceMismatch
  | .KeyValueTypeMismatch => .TypeMismatch
  | .KeyTypeMismatch => .TypeMismatch
  | .EmptyTensors => .EmptyInput
  | .CoordsShapeMismatch => .ShapeMismatch
  | .ValuesShapeMismatch => .ShapeMismatch

/-- What a call of the facade can throw: an error of its own validation
(`utility::LogError` throws), or an error that a backend call raised. -/
inductive Exception where
  | LogError (m : Message)
  | Backend (k : ErrorKind)
  deriving DecidableEq, Repr

/-- The taxonomy kind of an exception. -/
def Exception.kind : Exception → ErrorKind
  | .LogError m => m.kind
  | .Backend k => k

/-- How a piece of code ends: it returns, it throws, or it has read a
`SizeVector` past its end (no defined behaviour). -/
inductive Outcome (ε α : Type) where
  | ok (a : α)
  | raised (e : ε)
  | undefined
  deriving DecidableEq, Repr

/-- Sequencing: the continuation runs only after a normal return. -/
def Outcome.bind {ε α γ : Type} (x : Outcome ε α) (f : α → Outcome ε γ) : Outcome ε γ :=
  match x with
  | .ok a => f a
  | .raised e => .raised e
  | .undefined => .undefined

/-- `SizeVector::operator[]`: defined only below `size()`. -/
def SizeVector.at (v : SizeVector) (i : Nat) : Outcome Exception Nat :=
  match v[i]? with
  | some d => .ok d
  | none => .undefined

/-- The call returned normally. -/
def Outcome.isOk {ε α : Type} : Outcome ε α → Bool
  | .ok _ => true
  | _ => false

/-- Modelled from the spec: the Hash-Table Backend of section 4.2, whose code is
not among the sources. `β` is the backend's state and `ι` the iterator handle;
every operation may raise an error of the taxonomy and returns the state it
leaves behind. Buffers are byte lists; an output pointer that is `nullptr` is
`none`. -/
structure BackendOps (β ι : Type) where
  CreateDefaultHashmap : (init_capacity key_size value_size : Nat) → Device →
    Outcome ErrorKind β
  device_ : β → Device
  Insert : β → (keys values : List Nat) → (N : Nat) →
    Outcome ErrorKind (List ι × List Bool) × β
  Find : β → (keys : List Nat) → (N : Nat) →
    Outcome ErrorKind (List ι × List Bool) × β
  UnpackIterators : β → List ι → List Bool → (keys values : Option (List Nat)) → (N : Nat) →
    Outcome ErrorKind (Option (List Nat) × Option (List Nat)) × β
  AssignIterators : β → List ι → List Bool → (values : List Nat) → (N : Nat) →
    Outcome ErrorKind Unit × β

/-- The calls the facade makes on its collaborators, in the order made. -/
inductive Call where
  | Malloc (byte_size : Nat) (device : Device)
  | Free (device : Device)
  | CreateDefaultHashmap (init_capacity key_size value_size : Nat) (device : Device)
  | Insert (N : Nat)
  | Find (N : Nat)
  | UnpackIterators (wantKeys wantValues : Bool) (N : Nat)
  | AssignIterators (N : Nat)
  deriving DecidableEq, Repr

/-- The bytes a `bool*` write leaves in a mask buffer. -/
def maskBytes (masks : List Bool) : List Nat := masks.map (fun b => if b then 1 else 0)

/-! ## `TensorHash` -/

/-- The members of `TensorHash`. -/
structure TensorHash (β : Type) where
  hashmap_ : β
  key_type_ : Dtype
  value_type_ : Dtype
  key_dim_ : Nat
  value_dim_ : Nat
  deriving DecidableEq

/-- Two states of an index agree on the four members fixed by the constructor. -/
def TensorHash.sameMembers {β : Type} (a b : TensorHash β) : Prop :=
  a.key_type_ = b.key_type_ ∧ a.value_type_ = b.value_type_ ∧
  a.key_dim_ = b.key_dim_ ∧ a.value_dim_ = b.value_dim_

/-- What the constructor derives from its two arguments (lines 69-85). -/
structure KeyValueInfo where
  key_type_ : Dtype
  value_type_ : Dtype
  key_dim_ : Nat
  value_dim_ : Nat
  N : Nat
  key_size : Nat
  value_size : Nat
  deriving DecidableEq, Repr

/-- The constructor's shape check (lines 59-67): `coords_shape.size() != 2`, then
`coords_shape[0] != values_shape[0]`. -/
def TensorHash.ShapeCheck (coords_shape values_shape : SizeVector) : Outcome Exception Unit :=
  if coords_shape.length ≠ 2 then .raised (.LogError .CoordsShapeNotND)
  else
    (SizeVector.at coords_shape 0).bind fun c0 =>
    (SizeVector.at values_shape 0).bind fun v0 =>
    if c0 ≠ v0 then .raised (.LogError .SizeMismatch) else .ok ()

/-- The constructor's "store type and dim info" and key-size check (lines 69-85).
`key_size` and `value_size` are `size_t`: the products are taken modulo `2^64`. -/
def TensorHash.StoreInfo (env : Env) (coords values : Tensor) : Outcome Exception KeyValueInfo :=
  let coords_shape := coords.GetShape
  let values_shape := values.GetShape
  let key_type := coords.GetDtype
  let value_type := values.GetDtype
  (SizeVector.at coords_shape 1).bind fun key_dim =>
  (if values_shape.length = 1 then .ok 1 else SizeVector.at values_shape 1).bind fun value_dim =>
  (SizeVector.at coords_shape 0).bind fun N =>
  let key_size := (env.ByteSize key_type * key_dim) % SIZE_MOD
  if key_size > env.MAX_KEY_BYTESIZE then
    .raised (.LogError (.UnsupportedKeySize env.MAX_KEY_BYTESIZE key_size))
  else
    .ok { key_type_ := key_type, value_type_ := value_type, key_dim_ := key_dim,
          value_dim_ := value_dim, N := N, key_size := key_size,
          value_size := (env.ByteSize value_type * value_dim) % SIZE_MOD }

/-- Everything the constructor does before it creates the hashmap (lines 49-85):
device check, contiguity check, shape check, stored info and key-size check. -/
def TensorHash.ConstructChecks (env : Env) (coords values : Tensor) :
    Outcome Exception KeyValueInfo :=
  if coords.GetDevice.GetType ≠ values.GetDevice.GetType then
    .raised (.LogError .InputDeviceMismatch)
  else if (!coords.IsContiguous || !values.IsContiguous) = true then
    .raised (.LogError .NotContiguous)
  else
    (TensorHash.ShapeCheck coords.GetShape values.GetShape).bind fun _ =>
    TensorHash.StoreInfo env coords values

/-- `TensorHash::TensorHash(coords, values, insert)`: the checks, then
`CreateDefaultHashmap(N / 2, key_size, value_size, device)` and, when `insert`
is set, two scratch buffers, one backend `Insert` and the two `Free`s. A backend
call that throws leaves the constructor at once. -/
def TensorHash.Construct {β ι : Type} (env : Env) (ops : BackendOps β ι)
    (coords values : Tensor) (insert : Bool) (trace : List Call) :
    Outcome Exception (TensorHash β) × List Call :=
  match TensorHash.ConstructChecks env coords values with
  | .raised e => (.raised e, trace)
  | .undefined => (.undefined, trace)
  | .ok info =>
    let device := coords.GetDevice
    let trace1 := trace ++
      [Call.CreateDefaultHashmap (info.N / 2) info.key_size info.value_size device]
    match ops.CreateDefaultHashmap (info.N / 2) info.key_size info.value_size device with
    | .raised k => (.raised (.Backend k), trace1)
    | .undefined => (.undefined, trace1)
    | .ok hashmap =>
      let self : TensorHash β :=
        { hashmap_ := hashmap, key_type_ := info.key_type_, value_type_ := info.value_type_,
          key_dim_ := info.key_dim_, value_dim_ := info.value_dim_ }
      if insert then
        let trace2 := trace1 ++
          [Call.Malloc ((env.sizeof_iterator_t * info.N) % SIZE_MOD) device,
           Call.Malloc ((sizeof_bool * info.N) % SIZE_MOD) device,
           Call.Insert info.N]
        match ops.Insert hashmap coords.blob values.blob info.N with
        | (.raised k, _) => (.raised (.Backend k), trace2)
        | (.undefined, _) => (.undefined, trace2)
        | (.ok _, hashmap1) =>
          (.ok { self with hashmap_ := hashmap1 }, trace2 ++ [Call.Free device, Call.Free device])
      else
        (.ok self, trace1)

/-- The checks of `TensorHash::Insert` (lines 107-136), ending with
`N = coords.GetShape()[0]`. The test for empty tensors is written in the source
as `coords_shape.size() == 0 || coords_shape.size() == 0`. -/
def TensorHash.InsertChecks {β ι : Type} (ops : BackendOps β ι) (self : TensorHash β)
    (coords values : Tensor) : Outcome Exception Nat :=
  if coords.GetDevice.GetType ≠ (ops.device_ self.hashmap_).GetType then
    .raised (.LogError .HashmapDeviceMismatch)
  else if (!coords.IsContiguous || !values.IsContiguous) = true then
    .raised (.LogError .NotContiguous)
  else if self.key_type_ ≠ coords.GetDtype ∨ self.value_type_ ≠ values.GetDtype then
    .raised (.LogError .KeyValueTypeMismatch)
  else
    let coords_shape := coords.GetShape
    let values_shape := values.GetShape
    if coords_shape.length = 0 ∨ coords_shape.length = 0 then
      .raised (.LogError .EmptyTensors)
    else if coords_shape.length ≠ 2 then
      .raised (.LogError .CoordsShapeMismatch)
    else
      (SizeVector.at coords_shape 1).bind fun d =>
      if d ≠ self.key_dim_ then .raised (.LogError .CoordsShapeMismatch)
      else
        (if values_shape.length = 1 then .ok 1 else SizeVector.at values_shape 1).bind
          fun value_dim =>
        if value_dim ≠ self.value_dim_ then .raised (.LogError .ValuesShapeMismatch)
        else SizeVector.at coords.GetShape 0

/-- `TensorHash::Insert(coords, values)`: the checks, one scratch buffer, the two
output tensors, backend `Insert`, `UnpackIterators` asking for keys only, `Free`. -/
def TensorHash.Insert {β ι : Type} (env : Env) (ops : BackendOps β ι) (self : TensorHash β)
    (coords values : Tensor) (trace : List Call) :
    Outcome Exception (Tensor × Tensor) × TensorHash β × List Call :=
  match TensorHash.InsertChecks ops self coords values with
  | .raised e => (.raised e, self, trace)
  | .undefined => (.undefined, self, trace)
  | .ok N =>
    let device := coords.GetDevice
    let trace1 := trace ++
      [Call.Malloc ((env.sizeof_iterator_t * N) % SIZE_MOD) device, Call.Insert N]
    let output_coord_tensor := Tensor.New env [N, self.key_dim_] self.key_type_ device
    let output_mask_tensor := Tensor.New env [N] Dtype.Bool device
    match ops.Insert self.hashmap_ coords.blob values.blob N with
    | (.raised k, hashmap1) => (.raised (.Backend k), { self with hashmap_ := hashmap1 }, trace1)
    | (.undefined, hashmap1) => (.undefined, { self with hashmap_ := hashmap1 }, trace1)
    | (.ok (iterators, masks), hashmap1) =>
      let output_mask_tensor := { output_mask_tensor with blob := maskBytes masks }
      let trace2 := trace1 ++ [Call.UnpackIterators true false N]
      match ops.UnpackIterators hashmap1 iterators masks
          (some output_coord_tensor.blob) none N with
      | (.raised k, hashmap2) =>
        (.raised (.Backend k), { self with hashmap_ := hashmap2 }, trace2)
      | (.undefined, hashmap2) => (.undefined, { self with hashmap_ := hashmap2 }, trace2)
      | (.ok (keys, _), hashmap2) =>
        (.ok ({ output_coord_tensor with blob := keys.getD output_coord_tensor.blob },
              output_mask_tensor),
         { self with hashmap_ := hashmap2 }, trace2 ++ [Call.Free device])

/-- The checks of `TensorHash::Query` (lines 163-182), ending with
`N = coords.GetShape()[0]`. -/
def TensorHash.QueryChecks {β ι : Type} (ops : BackendOps β ι) (self : TensorHash β)
    (coords : Tensor) : Outcome Exception Nat :=
  if coords.GetDevice.GetType ≠ (ops.device_ self.hashmap_).GetType then
    .raised (.LogError .HashmapDeviceMismatch)
  else if (!coords.IsContiguous) = true then
    .raised (.LogError .NotContiguous)
  else if self.key_type_ ≠ coords.GetDtype then
    .raised (.LogError .KeyTypeMismatch)
  else
    let coords_shape := coords.GetShape
    if coords_shape.length ≠ 2 then
      .raised (.LogError .CoordsShapeMismatch)
    else
      (SizeVector.at coords_shape 1).bind fun d =>
      if d ≠ self.key_dim_ then .raised (.LogError .CoordsShapeMismatch)
      else SizeVector.at coords.GetShape 0

/-- `TensorHash::Query(coords)`: the checks, one scratch buffer, the two output
tensors, backend `Find`, `UnpackIterators` asking for values only, `Free`. -/
def TensorHash.Query {β ι : Type} (env : Env) (ops : BackendOps β ι) (self : TensorHash β)
    (coords : Tensor) (trace : List Call) :
    Outcome Exception (Tensor × Tensor) × TensorHash β × List Call :=
  match TensorHash.QueryChecks ops self coords with
  | .raised e => (.raised e, self, trace)
  | .undefined => (.undefined, self, trace)
  | .ok N =>
    let device := coords.GetDevice
    let trace1 := trace ++
      [Call.Malloc ((env.sizeof_iterator_t * N) % SIZE_MOD) device, Call.Find N]
    let output_value_tensor := Tensor.New env [N, self.value_dim_] self.value_type_ device
    let output_mask_tensor := Tensor.New env [N] Dtype.Bool device
    match ops.Find self.hashmap_ coords.blob N with
    | (.raised k, hashmap1) => (.raised (.Backend k), { self with hashmap_ := hashmap1 }, trace1)
    | (.undefined, hashmap1) => (.undefined, { self with hashmap_ := hashmap1 }, trace1)
    | (.ok (iterators, masks), hashmap1) =>
      let output_mask_tensor := { output_mask_tensor with blob := maskBytes masks }
      let trace2 := trace1 ++ [Call.UnpackIterators false true N]
      match ops.UnpackIterators hashmap1 iterators masks
          none (some output_value_tensor.blob) N with
      | (.raised k, hashmap2) =>
        (.raised (.Backend k), { self with hashmap_ := hashmap2 }, trace2)
      | (.undefined, hashmap2) => (.undefined, { self with hashmap_ := hashmap2 }, trace2)
      | (.ok (_, vals), hashmap2) =>
        (.ok ({ output_value_tensor with blob := vals.getD output_value_tensor.blob },
              output_mask_tensor),
         { self with hashmap_ := hashmap2 }, trace2 ++ [Call.Free device])

/-- The checks of `TensorHash::Assign` (lines 209-238), the same text as those of
`Insert`. -/
def TensorHash.AssignChecks {β ι : Type} (ops : BackendOps β ι) (self : TensorHash β)
    (coords values : Tensor) : Outcome Exception Nat :=
  if coords.GetDevice.GetType ≠ (ops.device_ self.hashmap_).GetType then
    .raised (.LogError .HashmapDeviceMismatch)
  else if (!coords.IsContiguous || !values.IsContiguous) = true then
    .raised (.LogError .NotContiguous)
  else if self.key_type_ ≠ coords.GetDtype ∨ self.value_type_ ≠ values.GetDtype then
    .raised (.LogError .KeyValueTypeMismatch)
  else
    let coords_shape := coords.GetShape
    let values_shape := values.GetShape
    if coords_shape.length = 0 ∨ coords_shape.length = 0 then
      .raised (.LogError .EmptyTensors)
    else if coords_shape.length ≠ 2 then
      .raised (.LogError .CoordsShapeMismatch)
    else
      (SizeVector.at coords_shape 1).bind fun d =>
      if d ≠ self.key_dim_ then .raised (.LogError .CoordsShapeMismatch)
      else
        (if values_shape.length = 1 then .ok 1 else SizeVector.at values_shape 1).bind
          fun value_dim =>
        if value_dim ≠ self.value_dim_ then .raised (.LogError .ValuesShapeMismatch)
        else SizeVector.at coords.GetShape 0

/-- `TensorHash::Assign(coords, values)`: the checks, one scratch buffer, a mask
tensor of element type `Dtype::UInt8`, backend `Find`, `AssignIterators`, `Free`. -/
def TensorHash.Assign {β ι : Type} (env : Env) (ops : BackendOps β ι) (self : TensorHash β)
    (coords values : Tensor) (trace : List Call) :
    Outcome Exception Tensor × TensorHash β × List Call :=
  match TensorHash.AssignChecks ops self coords values with
  | .raised e => (.raised e, self, trace)
  | .undefined => (.undefined, self, trace)
  | .ok N =>
    let device := coords.GetDevice
    let trace1 := trace ++
      [Call.Malloc ((env.sizeof_iterator_t * N) % SIZE_MOD) device, Call.Find N]
    let output_mask_tensor := Tensor.New env [N] Dtype.UInt8 device
    match ops.Find self.hashmap_ coords.blob N with
    | (.raised k, hashmap1) => (.raised (.Backend k), { self with hashmap_ := hashmap1 }, trace1)
    | (.undefined, hashmap1) => (.undefined, { self with hashmap_ := hashmap1 }, trace1)
    | (.ok (iterators, masks), hashmap1) =>
      let output_mask_tensor := { output_mask_tensor with blob := maskBytes masks }
      let trace2 := trace1 ++ [Call.AssignIterators N]
      match ops.AssignIterators hashmap1 iterators masks values.blob N with
      | (.raised k, hashmap2) =>
        (.raised (.Backend k), { self with hashmap_ := hashmap2 }, trace2)
      | (.undefined, hashmap2) => (.undefined, { self with hashmap_ := hashmap2 }, trace2)
      | (.ok _, hashmap2) =>
        (.ok output_mask_tensor, { self with hashmap_ := hashmap2 }, trace2 ++ [Call.Free device])

/-! ## The individual checks, as the source writes them -/

/-- The device check of `Insert`, `Query` and `Assign` fails: the device kinds of
`coords` and of the hashmap differ. -/
abbrev DeviceFails {β ι : Type} (ops : BackendOps β ι) (self : TensorHash β)
    (coords : Tensor) : Prop :=
  coords.GetDevice.GetType ≠ (ops.device_ self.hashmap_).GetType

/-- The contiguity check of `Insert` and `Assign` fails. -/
abbrev ContiguityFails (coords values : Tensor) : Prop :=
  coords.IsContiguous = false ∨ values.IsContiguous = false

/-- The element-type check of `Insert` and `Assign` fails. -/
abbrev TypeFails {β : Type} (self : TensorHash β) (coords values : Tensor) : Prop :=
  self.key_type_ ≠ coords.GetDtype ∨ self.value_type_ ≠ values.GetDtype

/-- The test for empty tensors of `Insert` and `Assign` fires: `coords` has rank 0. -/
abbrev EmptyFails (coords : Tensor) : Prop :=
  coords.GetShape.length = 0

/-- The `coords` shape check of `Insert`, `Query` and `Assign` fails. -/
abbrev KeyShapeFails {β : Type} (self : TensorHash β) (coords : Tensor) : Prop :=
  coords.GetShape.length ≠ 2 ∨ coords.GetShape[1]? ≠ some self.key_dim_

/-- The value `values_shape.size() == 1 ? 1 : values_shape[1]`, when the read is
inside the vector. -/
def valueDim (values_shape : SizeVector) : Option Nat :=
  if values_shape.length = 1 then some 1 else values_shape[1]?

/-- The `values` shape check of `Insert` and `Assign` fails: the value dimension
read from `values` is not the stored one. -/
abbrev ValueShapeFails {β : Type} (self : TensorHash β) (values : Tensor) : Prop :=
  valueDim values.GetShape ≠ none ∧ valueDim values.GetShape ≠ some self.value_dim_

/-- The device check of the constructor fails: the device kinds of `coords` and
`values` differ. -/
abbrev ConstructDeviceFails (coords values : Tensor) : Prop :=
  coords.GetDevice.GetType ≠ values.GetDevice.GetType

/-- The size check of the constructor fails: `coords_shape[0] != values_shape[0]`,
both reads inside their vectors. -/
abbrev SizeFails (coords values : Tensor) : Prop :=
  ∃ c0 v0, coords.GetShape[0]? = some c0 ∧ values.GetShape[0]? = some v0 ∧ c0 ≠ v0

/-- The `size_t` value `DtypeUtil::ByteSize(key_type_) * key_dim_` for a key row
of `key_dim` elements. -/
def keySize (env : Env) (key_type : Dtype) (key_dim : Nat) : Nat :=
  (env.ByteSize key_type * key_dim) % SIZE_MOD

/-- The key-size check of the constructor fails. -/
abbrev KeySizeFails (env : Env) (coords : Tensor) : Prop :=
  ∃ d, coords.GetShape[1]? = some d ∧ keySize env coords.GetDtype d > env.MAX_KEY_BYTESIZE

/-- The kind reported by the earliest failing check of a list of checks taken in
order, each paired with the kind it reports; `none` when no check fails. -/
def earliest : List (Bool × ErrorKind) → Option ErrorKind
  | [] => none
  | (fails, kind) :: rest => if fails then some kind else earliest rest

/-- The validation order in the words of the specification (section 4.3):
"device match, contiguity, element-type match against the instance's stored
key/value type, rank/shape match against stored key_dim/value_dim, non-empty",
with "all arrays in one call must reside on the Backend's device", keys of
shape `[N, key_dim]`, values of shape `[N]` or `[N, value_dim]`, and an input
being empty when it has no row. -/
def specCheckList {β ι : Type} (ops : BackendOps β ι) (self : TensorHash β)
    (coords values : Tensor) : List (Bool × ErrorKind) :=
  [(decide (coords.GetDevice ≠ ops.device_ self.hashmap_ ∨
            values.GetDevice ≠ ops.device_ self.hashmap_), .DeviceMismatch),
   (decide (coords.IsContiguous = false ∨ values.IsContiguous = false), .InvalidLayout),
   (decide (coords.GetDtype ≠ self.key_type_ ∨ values.GetDtype ≠ self.value_type_),
     .TypeMismatch),
   (decide (¬ (coords.GetShape = [coords.GetShape.headD 0, self.key_dim_] ∧
             (values.GetShape = [coords.GetShape.headD 0] ∨
              values.GetShape = [coords.GetShape.headD 0, self.value_dim_]))),
     .ShapeMismatch),
   (decide (coords.GetShape.headD 0 = 0), .EmptyInput)]

/-- A backend that only records what it is asked: its state is its device and
the list of backend calls it has received. It reports every row as new on
`Insert` and as present on `Find`, and leaves output buffers as they are. -/
def Recorder : BackendOps (Device × List Call) Nat where
  CreateDefaultHashmap := fun c k v d => .ok (d, [Call.CreateDefaultHashmap c k v d])
  device_ := fun s => s.1
  Insert := fun s _ _ N =>
    (.ok (List.range N, List.replicate N true), (s.1, s.2 ++ [Call.Insert N]))
  Find := fun s _ N =>
    (.ok (List.range N, List.replicate N true), (s.1, s.2 ++ [Call.Find N]))
  UnpackIterators := fun s _ _ keys values N =>
    (.ok (keys, values), (s.1, s.2 ++ [Call.UnpackIterators keys.isSome values.isSome N]))
  AssignIterators := fun s _ _ _ N =>
    (.ok (), (s.1, s.2 ++ [Call.AssignIterators N]))

/-- A build with the usual element sizes, keys of at most 32 bytes and 8-byte
iterators, for evaluating the facade on concrete inputs. -/
def sampleEnv : Env where
  ByteSize := fun
    | .Undefined => 0
    | .Float32 => 4
    | .Float64 => 8
    | .Int32 => 4
    | .Int64 => 8
    | .UInt8 => 1
    | .Bool => 1
  MAX_KEY_BYTESIZE := 32
  sizeof_iterator_t := 8

/-- The host device. -/
def cpu0 : Device := { device_type_ := .CPU, device_id_ := 0 }

/-- A contiguous host tensor of the given shape and element type in the sample
build, all its bytes zero. -/
def sampleTensor (shape : SizeVector) (dtype : Dtype) : Tensor :=
  Tensor.New sampleEnv shape dtype cpu0

/-- A contiguous tensor on the accelerator of the given device number, all its
bytes zero. -/
def cudaTensor (id : Nat) (shape : SizeVector) (dtype : Dtype) : Tensor :=
  Tensor.New sampleEnv shape dtype { device_type_ := .CUDA, device_id_ := id }

/-- A hash index on the host for `Int64` keys of 3 elements and `Int64` values of
1 element, over the recording backend with nothing recorded. -/
def sampleHash : TensorHash (Device × List Call) :=
  { hashmap_ := (cpu0, []), key_type_ := .Int64, value_type_ := .Int64,
    key_dim_ := 3, value_dim_ := 1 }

/-! ## `TensorKey` (`cpp/open3d/core/TensorKey.cpp`) -/

namespace core

/-- The messages `TensorKey.cpp` passes to `utility::LogError`. -/
inductive KeyMessage where
  /-- Text "GetMode() failed: unsupported mode." -/
  | UnsupportedMode
  /-- Text "GetIndex() failed: the impl is not IndexImpl." -/
  | GetIndexNotIndexImpl
  /-- Text "GetStart() failed: the impl is not SliceImpl." -/
  | GetStartNotSliceImpl
  /-- Text "GetStop() failed: the impl is not SliceImpl." -/
  | GetStopNotSliceImpl
  /-- Text "GetStep() failed: the impl is not SliceImpl." -/
  | GetStepNotSliceImpl
  /-- Text "UpdateWithDimSize() failed: the impl is not SliceImpl." -/
  | UpdateWithDimSizeNotSliceImpl
  /-- Text "GetIndexTensor() failed: the impl is not IndexTensorImpl." -/
  | GetIndexTensorNotIndexTensorImpl
  /-- Text "TensorKeyMode::Slice: start is None." -/
  | StartIsNone
  /-- Text "TensorKeyMode::Slice: stop is None." -/
  | StopIsNone
  /-- Text "TensorKeyMode::Slice: step is None." -/
  | StepIsNone
  deriving DecidableEq, Repr

/-- The members of `TensorKey::SliceImpl`: three `utility::optional<int64_t>`. -/
structure SliceImpl where
  start_ : Option Int
  stop_ : Option Int
  step_ : Option Int
  deriving DecidableEq, Repr

/-- The classes derived from `TensorKey::Impl`. The constructor of `TensorKey` is
private and only the three factories call it, so `impl_` always points to an
object of one of the three. -/
inductive Impl where
  | IndexImpl (index_ : Int)
  | SliceImpl (slice : SliceImpl)
  | IndexTensorImpl (index_tensor_ : Tensor)
  deriving DecidableEq, Repr

/-- The class `TensorKey`: its only member is `impl_`. -/
structure TensorKey where
  impl_ : Impl
  deriving DecidableEq, Repr

/-- The enumeration `TensorKey::TensorKeyMode`. -/
inductive TensorKeyMode where
  | Index
  | Slice
  | IndexTensor
  deriving DecidableEq, Repr

/-- `SliceImpl::UpdateWithDimSize(dim_size)`. -/
def SliceImpl.UpdateWithDimSize (s : SliceImpl) (dim_size : Int) : SliceImpl :=
  { start_ := some (if s.start_.isSome then s.start_.getD 0 else 0),
    stop_ := some (if s.stop_.isSome then s.stop_.getD 0 else dim_size),
    step_ := some (if s.step_.isSome then s.step_.getD 0 else 1) }

/-- `SliceImpl::GetStart()`. -/
def SliceImpl.GetStart (s : SliceImpl) : Outcome KeyMessage Int :=
  match s.start_ with
  | some v => .ok v
  | none => .raised .StartIsNone

/-- `SliceImpl::GetStop()`. -/
def SliceImpl.GetStop (s : SliceImpl) : Outcome KeyMessage Int :=
  match s.stop_ with
  | some v => .ok v
  | none => .raised .StopIsNone

/-- `SliceImpl::GetStep()`. -/
def SliceImpl.GetStep (s : SliceImpl) : Outcome KeyMessage Int :=
  match s.step_ with
  | some v => .ok v
  | none => .raised .StepIsNone

/-- `TensorKey::Index(index)`. -/
def TensorKey.Index (index : Int) : TensorKey := { impl_ := .IndexImpl index }

/-- `TensorKey::Slice(start, stop, step)`. -/
def TensorKey.Slice (start stop step : Option Int) : TensorKey :=
  { impl_ := .SliceImpl { start_ := start, stop_ := stop, step_ := step } }

/-- `TensorKey::IndexTensor(index_tensor)`. -/
def TensorKey.IndexTensor (index_tensor : Tensor) : TensorKey :=
  { impl_ := .IndexTensorImpl index_tensor }

/-- `TensorKey::GetMode()`: the casts are tried in the order Index, Slice,
IndexTensor. -/
def TensorKey.GetMode (k : TensorKey) : Outcome KeyMessage TensorKeyMode :=
  match k.impl_ with
  | .IndexImpl _ => .ok .Index
  | .SliceImpl _ => .ok .Slice
  | .IndexTensorImpl _ => .ok .IndexTensor

/-- `TensorKey::GetIndex()`. -/
def TensorKey.GetIndex (k : TensorKey) : Outcome KeyMessage Int :=
  match k.impl_ with
  | .IndexImpl index => .ok index
  | _ => .raised .GetIndexNotIndexImpl

/-- `TensorKey::GetStart()`. -/
def TensorKey.GetStart (k : TensorKey) : Outcome KeyMessage Int :=
  match k.impl_ with
  | .SliceImpl slice_impl => slice_impl.GetStart
  | _ => .raised .GetStartNotSliceImpl

/-- `TensorKey::GetStop()`. -/
def TensorKey.GetStop (k : TensorKey) : Outcome KeyMessage Int :=
  match k.impl_ with
  | .SliceImpl slice_impl => slice_impl.GetStop
  | _ => .raised .GetStopNotSliceImpl

/-- `TensorKey::GetStep()`. -/
def TensorKey.GetStep (k : TensorKey) : Outcome KeyMessage Int :=
  match k.impl_ with
  | .SliceImpl slice_impl => slice_impl.GetStep
  | _ => .raised .GetStepNotSliceImpl

/-- `TensorKey::UpdateWithDimSize(dim_size)`. -/
def TensorKey.UpdateWithDimSize (k : TensorKey) (dim_size : Int) : Outcome KeyMessage TensorKey :=
  match k.impl_ with
  | .SliceImpl slice_impl => .ok { impl_ := .SliceImpl (slice_impl.UpdateWithDimSize dim_size) }
  | _ => .raised .UpdateWithDimSizeNotSliceImpl

/-- `TensorKey::GetIndexTensor()`: the tensor behind the returned pointer. -/
def TensorKey.GetIndexTensor (k : TensorKey) : Outcome KeyMessage Tensor :=
  match k.impl_ with
  | .IndexTensorImpl index_tensor => .ok index_tensor
  | _ => .raised .GetIndexTensorNotIndexTensorImpl

end core

/-! ## Counting allocator calls -/

/-- The number of `MemoryManager::Malloc` calls in a history. -/
def mallocCount (trace : List Call) : Nat :=
  trace.countP (fun c => match c with | .Malloc _ _ => true | _ => false)

/-- The number of `MemoryManager::Free` calls in a history. -/
def freeCount (trace : List Call) : Nat :=
  trace.countP (fun c => match c with | .Free _ => true | _ => false)

/-! ## `Unique` -/

/-- The 8 bytes of one `int64_t` element of non-negative value `v`, least
significant byte first (the layout on the little-endian machines the library is
built for). -/
def int64Bytes (v : Nat) : List Nat := (List.range 8).map (fun k => (v / 256 ^ k) % 256)

/-- `Tensor(const std::vector<int64_t>& init_vals, shape, Dtype::Int64, device)`:
a fresh contiguous tensor holding the given elements in order. -/
def Tensor.FromInt64 (init_vals : List Nat) (shape : SizeVector) (device : Device) : Tensor :=
  { shape_ := shape, dtype_ := .Int64, device_ := device, contiguous_ := true,
    blob := init_vals.flatMap int64Bytes }

/-- `Unique(tensor)` (lines 32-46): the vector `0, 1, ..., N - 1` with
`N = tensor.GetShape()[0]` made into the tensor `indices`, a `TensorHash` built
from `(tensor, indices)` with `insert = false`, one `Insert(tensor, indices)` on
it, whose result is returned. The timer and the log line are left out. -/
def Unique {β ι : Type} (env : Env) (ops : BackendOps β ι) (tensor : Tensor)
    (trace : List Call) : Outcome Exception (Tensor × Tensor) × List Call :=
  match SizeVector.at tensor.GetShape 0 with
  | .raised e => (.raised e, trace)
  | .undefined => (.undefined, trace)
  | .ok N =>
    let indices := Tensor.FromInt64 (List.range N) [N] tensor.GetDevice
    match TensorHash.Construct env ops tensor indices false trace with
    | (.raised e, trace1) => (.raised e, trace1)
    | (.undefined, trace1) => (.undefined, trace1)
    | (.ok tensor_hash, trace1) =>
      let result := TensorHash.Insert env ops tensor_hash tensor indices trace1
      (result.1, result.2.2)

/-! ## The hash-table backend of the specification -/

/-- Row `i` of a byte buffer made of rows of `size` bytes. -/
def rowOf (buf : List Nat) (size i : Nat) : List Nat := (buf.drop (i * size)).take size

/-- The first `N` rows of a byte buffer made of rows of `size` bytes. -/
def rowsOf (buf : List Nat) (size N : Nat) : List (List Nat) :=
  (List.range N).map (rowOf buf size)

/-- Modelled from the spec: the state of a Hash-Table Backend (sections 3 and
4.2), whose code is not among the sources. It is fixed at construction to one
device, a capacity in entries, a key width and a value width in bytes; `slots`
lists the occupied slots, each a key with its value, in the order in which they
were filled. An iterator is the position of a slot in that list. -/
structure HashBackend where
  device_ : Device
  capacity : Nat
  key_size : Nat
  value_size : Nat
  slots : List (List Nat × List Nat)
  deriving DecidableEq, Repr

/-- Modelled from the spec: the slot that holds an equal key, if there is one
(the end of the key's probe sequence). -/
def findSlot (key : List Nat) : List (List Nat × List Nat) → Option Nat
  | [] => none
  | s :: rest => if s.1 = key then some 0 else (findSlot key rest).map (· + 1)

/-- The result of a batch with one more row in front. -/
def consRow (it : Nat) (mask : Bool)
    (r : Outcome ErrorKind (List Nat × List Bool) × List (List Nat × List Nat)) :
    Outcome ErrorKind (List Nat × List Bool) × List (List Nat × List Nat) :=
  match r with
  | (.ok (its, masks), slots) => (.ok (it :: its, mask :: masks), slots)
  | (.raised e, slots) => (.raised e, slots)
  | (.undefined, slots) => (.undefined, slots)

/-- Modelled from the spec: backend `Insert` (section 4.2), the rows taken one
after the other. A row whose key already occupies a slot writes nothing and
gets mask `false` and the iterator of that slot; another row fills a new slot
and gets mask `true`, unless the reserved capacity is used up, in which case
the batch fails with `CapacityExceeded` and the slots filled before stay. Of
equal keys in one batch the earliest row wins: one of the resolutions the
specification allows. -/
def insertRows (capacity : Nat) :
    List (List Nat × List Nat) → List (List Nat × List Nat) →
    Outcome ErrorKind (List Nat × List Bool) × List (List Nat × List Nat)
  | slots, [] => (.ok ([], []), slots)
  | slots, (key, value) :: rest =>
    match findSlot key slots with
    | some j => consRow j false (insertRows capacity slots rest)
    | none =>
      if slots.length < capacity then
        consRow slots.length true (insertRows capacity (slots ++ [(key, value)]) rest)
      else (.raised .CapacityExceeded, slots)

/-- Modelled from the spec: backend `Find` (section 4.2): for each key the
iterator of its slot and mask `true`, or mask `false` when the key is absent. -/
def findRows (slots : List (List Nat × List Nat)) (keys : List (List Nat)) :
    List Nat × List Bool :=
  (keys.map (fun k => (findSlot k slots).getD 0), keys.map (fun k => (findSlot k slots).isSome))

/-- Modelled from the spec: backend `UnpackIterators` (section 4.2) for one output
buffer of `N` rows: row `i` becomes the stored key or value (`sel`) of the slot
of iterator `i` where the mask is `true` and stays as it is elsewhere. -/
def unpackRows (slots : List (List Nat × List Nat))
    (sel : List Nat × List Nat → List Nat) (its : List Nat) (masks : List Bool)
    (size N : Nat) (buf : List Nat) : List Nat :=
  (List.range N).flatMap fun i =>
    if masks.getD i false then
      match slots[its.getD i 0]? with
      | some s => sel s
      | none => rowOf buf size i
    else rowOf buf size i

/-- Modelled from the spec: backend `AssignIterators` (section 4.2): the value of
the slot of each iterator whose mask is `true` is overwritten; other rows are
no-ops; no slot is created. -/
def assignRows :
    List (List Nat × List Nat) → List (Nat × Bool × List Nat) → List (List Nat × List Nat)
  | slots, [] => slots
  | slots, (it, mask, value) :: rest =>
    assignRows (if mask then slots.modify (fun s => (s.1, value)) it else slots) rest

/-- Modelled from the spec: the Hash-Table Backend of section 4.2 as a
`BackendOps`. `Construct` "fails with `InvalidArgument` if `key_size` exceeds
the architecture's maximum supported key width" and reserves `capacity`
entries; there is "no automatic resize". -/
def SpecBackend (env : Env) : BackendOps HashBackend Nat where
  CreateDefaultHashmap := fun capacity key_size value_size device =>
    if key_size > env.MAX_KEY_BYTESIZE then .raised .InvalidArgument
    else .ok { device_ := device, capacity := capacity, key_size := key_size,
               value_size := value_size, slots := [] }
  device_ := fun b => b.device_
  Insert := fun b keys values N =>
    let r := insertRows b.capacity b.slots
      ((rowsOf keys b.key_size N).zip (rowsOf values b.value_size N))
    (r.1, { b with slots := r.2 })
  Find := fun b keys N => (.ok (findRows b.slots (rowsOf keys b.key_size N)), b)
  UnpackIterators := fun b its masks keys values N =>
    (.ok (keys.map (unpackRows b.slots Prod.fst its masks b.key_size N),
          values.map (unpackRows b.slots Prod.snd its masks b.value_size N)), b)
  AssignIterators := fun b its masks values N =>
    let slots := assignRows b.slots (its.zip (masks.zip (rowsOf values b.value_size N)))
    (.ok (), { b with slots := slots })

/-- The keys of the dedup scenario (section 8): 5 rows of 3 integers, row 3
equal to row 0, the others distinct. -/
def dedupKeys : Tensor :=
  Tensor.FromInt64 [1, 2, 3, 4, 5, 6, 7, 8, 9, 1, 2, 3, 10, 11, 12] [5, 3] cpu0

/-- The single key row `[1, 2]` of the assign-overwrite scenario (section 8). -/
def scenarioKey : Tensor := Tensor.FromInt64 [1, 2] [1, 2] cpu0

/-- A single value row holding `v`. -/
def scenarioValue (v : Nat) : Tensor := Tensor.FromInt64 [v] [1] cpu0

/-- Two distinct key rows of 3 integers. -/
def twoKeys : Tensor := Tensor.FromInt64 [1, 2, 3, 4, 5, 6] [2, 3] cpu0

/-- Two value rows of 1 integer. -/
def twoValues : Tensor := Tensor.FromInt64 [10, 20] [2] cpu0

/-- The index on the host for `Int64` keys of `key_dim` elements and `Int64`
values of 1 element whose backend is empty and has room for `capacity` entries:
what the constructor of the sample build hands back, but for the capacity. -/
def emptyIndex (capacity key_dim : Nat) : TensorHash HashBackend :=
  { hashmap_ := { device_ := cpu0, capacity := capacity, key_size := 8 * key_dim,
                  value_size := 8, slots := [] },
    key_type_ := .Int64, value_type_ := .Int64, key_dim_ := key_dim, value_dim_ := 1 }

/-! ## Basic facts about outcomes and the checks -/

section Lemmas

variable {β ι : Type}

@[simp] theorem Outcome.bind_ok {ε α γ : Type} (a : α) (f : α → Outcome ε γ) :
    (Outcome.ok a).bind f = f a := rfl

@[simp] theorem Outcome.bind_raised {ε α γ : Type} (e : ε) (f : α → Outcome ε γ) :
    (Outcome.raised e : Outcome ε α).bind f = .raised e := rfl

@[simp] theorem Outcome.bind_undefined {ε α γ : Type} (f : α → Outcome ε γ) :
    (Outcome.undefined : Outcome ε α).bind f = .undefined := rfl

theorem AssignChecks_eq_InsertChecks (ops : BackendOps β ι) (self : TensorHash β)
    (coords values : Tensor) :
    TensorHash.AssignChecks ops self coords values
      = TensorHash.InsertChecks ops self coords values := rfl

/-- A validation error of `Insert` comes from its checks and leaves everything
as it was. -/
theorem Insert_LogError (env : Env) (ops : BackendOps β ι) (self : TensorHash β)
    (coords values : Tensor) (trace : List Call) (m : Message)
    (h : (TensorHash.Insert env ops self coords values trace).1 = .raised (.LogError m)) :
    TensorHash.InsertChecks ops self coords values = .raised (.LogError m) ∧
    TensorHash.Insert env ops self coords values trace = (.raised (.LogError m), self, trace) := by
  unfold TensorHash.Insert at h ⊢
  cases hc : TensorHash.InsertChecks ops self coords values with
  | raised e => simp only [hc] at h ⊢; simp_all
  | undefined => simp only [hc] at h; simp at h
  | ok N =>
    simp only [hc] at h
    rcases hI : ops.Insert self.hashmap_ coords.blob values.blob N with ⟨r, hm⟩
    rw [hI] at h
    cases r with
    | raised k => simp at h
    | undefined => simp at h
    | ok p =>
      obtain ⟨its, masks⟩ := p
      simp only at h
      rcases hU : ops.UnpackIterators hm its masks
        (some (Tensor.New env [N, self.key_dim_] self.key_type_ coords.GetDevice).blob) none N
        with ⟨r2, hm2⟩
      rw [hU] at h
      cases r2 <;> simp at h

/-- The checks of `Insert` as one decision list over the named checks. -/
theorem InsertChecks_eq (ops : BackendOps β ι) (self : TensorHash β) (coords values : Tensor) :
    TensorHash.InsertChecks ops self coords values =
      if DeviceFails ops self coords then .raised (.LogError .HashmapDeviceMismatch)
      else if ContiguityFails coords values then .raised (.LogError .NotContiguous)
      else if TypeFails self coords values then .raised (.LogError .KeyValueTypeMismatch)
      else if EmptyFails coords then .raised (.LogError .EmptyTensors)
      else if KeyShapeFails self coords then .raised (.LogError .CoordsShapeMismatch)
      else match valueDim values.GetShape with
        | none => .undefined
        | some d =>
          if d ≠ self.value_dim_ then .raised (.LogError .ValuesShapeMismatch)
          else .ok (coords.GetShape.headD 0) := by
  unfold TensorHash.InsertChecks
  simp only [DeviceFails, ContiguityFails, TypeFails, EmptyFails, KeyShapeFails]
  generalize coords.GetShape = cs
  generalize values.GetShape = vs
  generalize coords.IsContiguous = cc
  generalize values.IsContiguous = vc
  by_cases h1 : coords.GetDevice.GetType ≠ (ops.device_ self.hashmap_).GetType
  · simp [h1]
  · simp only [h1, if_false]
    cases cc <;> cases vc <;> simp
    by_cases h3 : self.key_type_ ≠ coords.GetDtype ∨ self.value_type_ ≠ values.GetDtype
    · simp only [ne_eq] at h3
      simp [h3]
    · simp only [ne_eq] at h3
      simp only [h3, if_false]
      rcases cs with _ | ⟨a, _ | ⟨b, _ | ⟨c, t⟩⟩⟩
      · simp
      · simp
      · simp only [List.length_cons, List.length_nil, valueDim, SizeVector.at]
        by_cases hb : b = self.key_dim_
        · subst hb
          by_cases hv : vs.length = 1
          · simp [hv]
          · simp only [hv, if_false]
            cases hv1 : vs[1]? <;> simp
        · simp [hb]
      · simp

/-- The checks of `Query` as one decision list over the named checks. -/
theorem QueryChecks_eq (ops : BackendOps β ι) (self : TensorHash β) (coords : Tensor) :
    TensorHash.QueryChecks ops self coords =
      if DeviceFails ops self coords then .raised (.LogError .HashmapDeviceMismatch)
      else if coords.IsContiguous = false then .raised (.LogError .NotContiguous)
      else if self.key_type_ ≠ coords.GetDtype then .raised (.LogError .KeyTypeMismatch)
      else if KeyShapeFails self coords then .raised (.LogError .CoordsShapeMismatch)
      else .ok (coords.GetShape.headD 0) := by
  unfold TensorHash.QueryChecks
  simp only [DeviceFails, KeyShapeFails]
  generalize coords.GetShape = cs
  generalize coords.IsContiguous = cc
  by_cases h1 : coords.GetDevice.GetType ≠ (ops.device_ self.hashmap_).GetType
  · simp [h1]
  · simp only [h1, if_false]
    cases cc <;> simp
    by_cases h3 : self.key_type_ = coords.GetDtype
    · simp only [h3, not_true_eq_false, if_false]
      rcases cs with _ | ⟨a, _ | ⟨b, _ | ⟨c, t⟩⟩⟩
      · simp
      · simp
      · simp only [List.length_cons, List.length_nil, SizeVector.at]
        by_cases hb : b = self.key_dim_
        · simp [hb]
        · simp [hb]
      · simp
    · simp [h3]

/-- The shape check of the constructor as a decision list. -/
theorem ShapeCheck_eq (cs vs : SizeVector) :
    TensorHash.ShapeCheck cs vs =
      if cs.length ≠ 2 then .raised (.LogError .CoordsShapeNotND)
      else match vs[0]? with
        | none => .undefined
        | some v0 =>
          if cs.headD 0 ≠ v0 then .raised (.LogError .SizeMismatch) else .ok () := by
  unfold TensorHash.ShapeCheck
  rcases cs with _ | ⟨a, _ | ⟨b, _ | ⟨c, t⟩⟩⟩
  · simp
  · simp
  · simp only [List.length_cons, List.length_nil, SizeVector.at]
    cases h0 : vs[0]? <;> simp
  · simp

/-- A validation error of `Query` comes from its checks and leaves everything as
it was. -/
theorem Query_LogError (env : Env) (ops : BackendOps β ι) (self : TensorHash β)
    (coords : Tensor) (trace : List Call) (m : Message)
    (h : (TensorHash.Query env ops self coords trace).1 = .raised (.LogError m)) :
    TensorHash.QueryChecks ops self coords = .raised (.LogError m) ∧
    TensorHash.Query env ops self coords trace = (.raised (.LogError m), self, trace) := by
  unfold TensorHash.Query at h ⊢
  cases hc : TensorHash.QueryChecks ops self coords with
  | raised e => simp only [hc] at h ⊢; simp_all
  | undefined => simp only [hc] at h; simp at h
  | ok N =>
    simp only [hc] at h
    rcases hI : ops.Find self.hashmap_ coords.blob N with ⟨r, hm⟩
    rw [hI] at h
    cases r with
    | raised k => simp at h
    | undefined => simp at h
    | ok p =>
      obtain ⟨its, masks⟩ := p
      simp only at h
      rcases hU : ops.UnpackIterators hm its masks none
        (some (Tensor.New env [N, self.value_dim_] self.value_type_ coords.GetDevice).blob) N
        with ⟨r2, hm2⟩
      rw [hU] at h
      cases r2 <;> simp at h

/-- A validation error of `Assign` comes from its checks and leaves everything
as it was. -/
theorem Assign_LogError (env : Env) (ops : BackendOps β ι) (self : TensorHash β)
    (coords values : Tensor) (trace : List Call) (m : Message)
    (h : (TensorHash.Assign env ops self coords values trace).1 = .raised (.LogError m)) :
    TensorHash.AssignChecks ops self coords values = .raised (.LogError m) ∧
    TensorHash.Assign env ops self coords values trace = (.raised (.LogError m), self, trace) := by
  unfold TensorHash.Assign at h ⊢
  cases hc : TensorHash.AssignChecks ops self coords values with
  | raised e => simp only [hc] at h ⊢; simp_all
  | undefined => simp only [hc] at h; simp at h
  | ok N =>
    simp only [hc] at h
    rcases hI : ops.Find self.hashmap_ coords.blob N with ⟨r, hm⟩
    rw [hI] at h
    cases r with
    | raised k => simp at h
    | undefined => simp at h
    | ok p =>
      obtain ⟨its, masks⟩ := p
      simp only at h
      rcases hU : ops.AssignIterators hm its masks values.blob N with ⟨r2, hm2⟩
      rw [hU] at h
      cases r2 <;> simp at h

/-- A validation error of the constructor comes from its checks, before the
hashmap is created. -/
theorem Construct_LogError (env : Env) (ops : BackendOps β ι)
    (coords values : Tensor) (insert : Bool) (trace : List Call) (m : Message)
    (h : (TensorHash.Construct env ops coords values insert trace).1 = .raised (.LogError m)) :
    TensorHash.ConstructChecks env coords values = .raised (.LogError m) ∧
    TensorHash.Construct env ops coords values insert trace = (.raised (.LogError m), trace) := by
  unfold TensorHash.Construct at h ⊢
  cases hc : TensorHash.ConstructChecks env coords values with
  | raised e => simp only [hc] at h ⊢; simp_all
  | undefined => simp only [hc] at h; simp at h
  | ok info =>
    simp only [hc] at h
    cases hC : ops.CreateDefaultHashmap (info.N / 2) info.key_size info.value_size
        coords.GetDevice with
    | raised k => rw [hC] at h; simp at h
    | undefined => rw [hC] at h; simp at h
    | ok hm =>
      rw [hC] at h
      cases insert with
      | false => simp at h
      | true =>
        simp only [if_true] at h
        rcases hI : ops.Insert hm coords.blob values.blob info.N with ⟨r, hm1⟩
        rw [hI] at h
        cases r <;> simp at h

/-- The checks of the constructor as one decision list over the named checks. -/
theorem ConstructChecks_eq (env : Env) (coords values : Tensor) :
    TensorHash.ConstructChecks env coords values =
      if ConstructDeviceFails coords values then .raised (.LogError .InputDeviceMismatch)
      else if ContiguityFails coords values then .raised (.LogError .NotContiguous)
      else if coords.GetShape.length ≠ 2 then .raised (.LogError .CoordsShapeNotND)
      else match values.GetShape[0]? with
        | none => .undefined
        | some v0 =>
          if coords.GetShape.headD 0 ≠ v0 then .raised (.LogError .SizeMismatch)
          else if keySize env coords.GetDtype (coords.GetShape.getD 1 0) > env.MAX_KEY_BYTESIZE then
            .raised (.LogError (.UnsupportedKeySize env.MAX_KEY_BYTESIZE
              (keySize env coords.GetDtype (coords.GetShape.getD 1 0))))
          else
            .ok { key_type_ := coords.GetDtype, value_type_ := values.GetDtype,
                  key_dim_ := coords.GetShape.getD 1 0,
                  value_dim_ := (valueDim values.GetShape).getD 0,
                  N := coords.GetShape.headD 0,
                  key_size := keySize env coords.GetDtype (coords.GetShape.getD 1 0),
                  value_size :=
                    (env.ByteSize values.GetDtype * (valueDim values.GetShape).getD 0)
                      % SIZE_MOD } := by
  unfold TensorHash.ConstructChecks
  rw [ShapeCheck_eq]
  unfold TensorHash.StoreInfo
  simp only [ConstructDeviceFails, ContiguityFails, keySize, valueDim]
  generalize coords.GetShape = cs
  generalize values.GetShape = vs
  generalize coords.IsContiguous = cc
  generalize values.IsContiguous = vc
  by_cases h1 : coords.GetDevice.GetType ≠ values.GetDevice.GetType
  · simp [h1]
  · simp only [h1, if_false]
    cases cc <;> cases vc <;> simp
    rcases cs with _ | ⟨a, _ | ⟨b, _ | ⟨c, t⟩⟩⟩
    · simp
    · simp
    · rcases vs with _ | ⟨v0, _ | ⟨v1, vt⟩⟩
      · simp
      · by_cases hav : a = v0
        · subst hav
          simp only [List.length_cons, List.length_nil, SizeVector.at]
          simp
        · simp [hav]
      · by_cases hav : a = v0
        · subst hav
          simp only [List.length_cons, List.length_nil, SizeVector.at]
          simp
        · simp [hav]
    · simp

theorem Insert_of_checks_raised (env : Env) (ops : BackendOps β ι) (self : TensorHash β)
    (coords values : Tensor) (trace : List Call) (e : Exception)
    (h : TensorHash.InsertChecks ops self coords values = .raised e) :
    TensorHash.Insert env ops self coords values trace = (.raised e, self, trace) := by
  unfold TensorHash.Insert; simp [h]

theorem Query_of_checks_raised (env : Env) (ops : BackendOps β ι) (self : TensorHash β)
    (coords : Tensor) (trace : List Call) (e : Exception)
    (h : TensorHash.QueryChecks ops self coords = .raised e) :
    TensorHash.Query env ops self coords trace = (.raised e, self, trace) := by
  unfold TensorHash.Query; simp [h]

theorem Assign_of_checks_raised (env : Env) (ops : BackendOps β ι) (self : TensorHash β)
    (coords values : Tensor) (trace : List Call) (e : Exception)
    (h : TensorHash.AssignChecks ops self coords values = .raised e) :
    TensorHash.Assign env ops self coords values trace = (.raised e, self, trace) := by
  unfold TensorHash.Assign; simp [h]

theorem Construct_of_checks_raised (env : Env) (ops : BackendOps β ι)
    (coords values : Tensor) (insert : Bool) (trace : List Call) (e : Exception)
    (h : TensorHash.ConstructChecks env coords values = .raised e) :
    TensorHash.Construct env ops coords values insert trace = (.raised e, trace) := by
  unfold TensorHash.Construct; simp [h]

/-- Any failing check of `Insert` makes its checks end with a `LogError`. -/
theorem InsertChecks_fails (ops : BackendOps β ι) (self : TensorHash β) (coords values : Tensor)
    (h : DeviceFails ops self coords ∨ ContiguityFails coords values ∨
      TypeFails self coords values ∨ EmptyFails coords ∨ KeyShapeFails self coords ∨
      ValueShapeFails self values) :
    ∃ m, TensorHash.InsertChecks ops self coords values = .raised (.LogError m) := by
  rw [InsertChecks_eq]
  by_cases h1 : DeviceFails ops self coords
  · exact ⟨_, if_pos h1⟩
  rw [if_neg h1]
  by_cases h2 : ContiguityFails coords values
  · exact ⟨_, if_pos h2⟩
  rw [if_neg h2]
  by_cases h3 : TypeFails self coords values
  · exact ⟨_, if_pos h3⟩
  rw [if_neg h3]
  by_cases h4 : EmptyFails coords
  · exact ⟨_, if_pos h4⟩
  rw [if_neg h4]
  by_cases h5 : KeyShapeFails self coords
  · exact ⟨_, if_pos h5⟩
  rw [if_neg h5]
  rcases h with h | h | h | h | h | h
  · exact absurd h h1
  · exact absurd h h2
  · exact absurd h h3
  · exact absurd h h4
  · exact absurd h h5
  · obtain ⟨hd, hne⟩ := h
    cases hv : valueDim values.GetShape with
    | none => exact absurd hv hd
    | some d =>
      have hne2 : d ≠ self.value_dim_ := fun hh => hne (by rw [hv, hh])
      exact ⟨_, if_pos hne2⟩

/-- Any failing check of `Query` makes its checks end with a `LogError`. -/
theorem QueryChecks_fails (ops : BackendOps β ι) (self : TensorHash β) (coords : Tensor)
    (h : DeviceFails ops self coords ∨ coords.IsContiguous = false ∨
      self.key_type_ ≠ coords.GetDtype ∨ KeyShapeFails self coords) :
    ∃ m, TensorHash.QueryChecks ops self coords = .raised (.LogError m) := by
  rw [QueryChecks_eq]
  by_cases h1 : DeviceFails ops self coords
  · exact ⟨_, if_pos h1⟩
  rw [if_neg h1]
  by_cases h2 : coords.IsContiguous = false
  · exact ⟨_, if_pos h2⟩
  rw [if_neg h2]
  by_cases h3 : self.key_type_ ≠ coords.GetDtype
  · exact ⟨_, if_pos h3⟩
  rw [if_neg h3]
  by_cases h5 : KeyShapeFails self coords
  · exact ⟨_, if_pos h5⟩
  rcases h with h | h | h | h
  · exact absurd h h1
  · exact absurd h h2
  · exact absurd h h3
  · exact absurd h h5

/-- Any failing check of the constructor makes its checks end with a `LogError`. -/
theorem ConstructChecks_fails (env : Env) (coords values : Tensor)
    (h : ConstructDeviceFails coords values ∨ ContiguityFails coords values ∨
      coords.GetShape.length ≠ 2 ∨ SizeFails coords values ∨
      (values.GetShape ≠ [] ∧ KeySizeFails env coords)) :
    ∃ m, TensorHash.ConstructChecks env coords values = .raised (.LogError m) := by
  rw [ConstructChecks_eq]
  by_cases h1 : ConstructDeviceFails coords values
  · exact ⟨_, if_pos h1⟩
  rw [if_neg h1]
  by_cases h2 : ContiguityFails coords values
  · exact ⟨_, if_pos h2⟩
  rw [if_neg h2]
  by_cases h3 : coords.GetShape.length ≠ 2
  · exact ⟨_, if_pos h3⟩
  rw [if_neg h3]
  have hv : values.GetShape ≠ [] := by
    rcases h with h | h | h | h | h
    · exact absurd h h1
    · exact absurd h h2
    · exact absurd h h3
    · obtain ⟨c0, v0, _, hv0, _⟩ := h
      intro hnil
      rw [hnil] at hv0
      simp at hv0
    · exact h.1
  obtain ⟨v0, hv0⟩ : ∃ v0, values.GetShape[0]? = some v0 := by
    cases hvs : values.GetShape with
    | nil => exact absurd hvs hv
    | cons a t => exact ⟨a, by simp⟩
  rw [hv0]
  by_cases h4 : coords.GetShape.headD 0 ≠ v0
  · exact ⟨_, if_pos h4⟩
  simp only [h4, if_false]
  by_cases h5 : keySize env coords.GetDtype (coords.GetShape.getD 1 0) > env.MAX_KEY_BYTESIZE
  · exact ⟨_, if_pos h5⟩
  exfalso
  rcases h with h | h | h | h | h
  · exact h1 h
  · exact h2 h
  · exact h3 h
  · obtain ⟨c0, w0, hc0, hw0, hne⟩ := h
    rw [hv0] at hw0
    cases hw0
    apply h4
    cases hcs : coords.GetShape with
    | nil => rw [hcs] at hc0; simp at hc0
    | cons a t =>
      rw [hcs] at hc0
      simp at hc0
      simpa [hc0] using hne
  · obtain ⟨_, d, hd, hgt⟩ := h
    apply h5
    have : coords.GetShape.getD 1 0 = d := by
      simp [List.getD, hd]
    rw [this]; exact hgt

/-- The checks of `Insert` pass exactly when no named check fails, the keys have
shape `[N, key_dim_]` and the value dimension read from `values` is the stored
one. -/
theorem InsertChecks_ok_iff (ops : BackendOps β ι) (self : TensorHash β)
    (coords values : Tensor) (N : Nat) :
    TensorHash.InsertChecks ops self coords values = .ok N ↔
      ¬ DeviceFails ops self coords ∧ ¬ ContiguityFails coords values ∧
      ¬ TypeFails self coords values ∧ coords.GetShape = [N, self.key_dim_] ∧
      valueDim values.GetShape = some self.value_dim_ := by
  rw [InsertChecks_eq]
  by_cases h1 : DeviceFails ops self coords
  · simp [h1]
  by_cases h2 : ContiguityFails coords values
  · simp [h1, h2]
  by_cases h3 : TypeFails self coords values
  · simp [h1, h2, h3]
  simp only [if_neg h1, if_neg h2, if_neg h3, h1, h2, h3, not_false_eq_true, true_and]
  simp only [EmptyFails, KeyShapeFails]
  rcases hs : coords.GetShape with _ | ⟨a, _ | ⟨b, _ | ⟨c, t⟩⟩⟩
  · simp
  · simp
  · by_cases hb : b = self.key_dim_
    · subst hb
      cases hv : valueDim values.GetShape with
      | none => simp
      | some d =>
        by_cases hd : d = self.value_dim_
        · simp [hd]
        · simp [hd]
    · simp [hb]
  · simp

/-- The checks of `Query` pass exactly when no named check fails and the keys
have shape `[N, key_dim_]`. -/
theorem QueryChecks_ok_iff (ops : BackendOps β ι) (self : TensorHash β)
    (coords : Tensor) (N : Nat) :
    TensorHash.QueryChecks ops self coords = .ok N ↔
      ¬ DeviceFails ops self coords ∧ coords.IsContiguous = true ∧
      self.key_type_ = coords.GetDtype ∧ coords.GetShape = [N, self.key_dim_] := by
  rw [QueryChecks_eq]
  by_cases h1 : DeviceFails ops self coords
  · simp [h1]
  by_cases h2 : coords.IsContiguous = false
  · simp [h1, h2]
  by_cases h3 : self.key_type_ ≠ coords.GetDtype
  · simp [h1, h2, h3]
  simp only [if_neg h1, if_neg h2, if_neg h3, h1, not_false_eq_true, true_and]
  simp only [ne_eq, not_not] at h3
  simp only [Bool.not_eq_false] at h2
  simp only [h2, h3, true_and]
  simp only [KeyShapeFails]
  rcases hs : coords.GetShape with _ | ⟨a, _ | ⟨b, _ | ⟨c, t⟩⟩⟩
  · simp
  · simp
  · by_cases hb : b = self.key_dim_
    · simp [hb]
    · simp [hb]
  · simp

/-- A normal return of `Insert` has passed the checks. -/
theorem Insert_ok_checks (env : Env) (ops : BackendOps β ι) (self : TensorHash β)
    (coords values : Tensor) (trace : List Call) (r : Tensor × Tensor)
    (h : (TensorHash.Insert env ops self coords values trace).1 = .ok r) :
    ∃ N, TensorHash.InsertChecks ops self coords values = .ok N := by
  unfold TensorHash.Insert at h
  cases hc : TensorHash.InsertChecks ops self coords values with
  | ok N => exact ⟨N, rfl⟩
  | raised e => simp [hc] at h
  | undefined => simp [hc] at h

/-- A normal return of `Assign` has passed the checks. -/
theorem Assign_ok_checks (env : Env) (ops : BackendOps β ι) (self : TensorHash β)
    (coords values : Tensor) (trace : List Call) (r : Tensor)
    (h : (TensorHash.Assign env ops self coords values trace).1 = .ok r) :
    ∃ N, TensorHash.AssignChecks ops self coords values = .ok N := by
  unfold TensorHash.Assign at h
  cases hc : TensorHash.AssignChecks ops self coords values with
  | ok N => exact ⟨N, rfl⟩
  | raised e => simp [hc] at h
  | undefined => simp [hc] at h

/-- A normal return of `Query` has passed the checks. -/
theorem Query_ok_checks (env : Env) (ops : BackendOps β ι) (self : TensorHash β)
    (coords : Tensor) (trace : List Call) (r : Tensor × Tensor)
    (h : (TensorHash.Query env ops self coords trace).1 = .ok r) :
    ∃ N, TensorHash.QueryChecks ops self coords = .ok N := by
  unfold TensorHash.Query at h
  cases hc : TensorHash.QueryChecks ops self coords with
  | ok N => exact ⟨N, rfl⟩
  | raised e => simp [hc] at h
  | undefined => simp [hc] at h

/-- What `valueDim` being the stored dimension says about the shape. -/
theorem valueDim_eq_some (vs : SizeVector) (d : Nat) :
    valueDim vs = some d ↔
      (vs.length = 1 ∧ d = 1) ∨ (2 ≤ vs.length ∧ vs[1]? = some d) := by
  unfold valueDim
  rcases vs with _ | ⟨a, _ | ⟨b, t⟩⟩
  · simp
  · simp [eq_comm]
  · simp

/-- The constructor's checks once device, contiguity and shape checks have
passed: only the key-size check is left. -/
theorem ConstructChecks_of_shape (env : Env) (coords values : Tensor) (N key_dim : Nat)
    (hd : ¬ ConstructDeviceFails coords values) (hc : ¬ ContiguityFails coords values)
    (hs : TensorHash.ShapeCheck coords.GetShape values.GetShape = .ok ())
    (hshape : coords.GetShape = [N, key_dim]) :
    TensorHash.ConstructChecks env coords values =
      if keySize env coords.GetDtype key_dim > env.MAX_KEY_BYTESIZE then
        .raised (.LogError (.UnsupportedKeySize env.MAX_KEY_BYTESIZE
          (keySize env coords.GetDtype key_dim)))
      else
        .ok { key_type_ := coords.GetDtype, value_type_ := values.GetDtype,
              key_dim_ := key_dim,
              value_dim_ := (valueDim values.GetShape).getD 0,
              N := N,
              key_size := keySize env coords.GetDtype key_dim,
              value_size :=
                (env.ByteSize values.GetDtype * (valueDim values.GetShape).getD 0)
                  % SIZE_MOD } := by
  rw [ConstructChecks_eq, if_neg hd, if_neg hc]
  rw [ShapeCheck_eq] at hs
  rw [hshape] at hs ⊢
  simp only [List.length_cons, List.length_nil, ne_eq, not_true_eq_false, if_false] at hs ⊢
  rcases hvs : values.GetShape with _ | ⟨v0, vt⟩
  · rw [hvs] at hs; simp at hs
  · rw [hvs] at hs
    simp only [List.getElem?_cons_zero, List.headD_cons] at hs ⊢
    by_cases hne : N = v0
    · subst hne
      simp
    · simp [hne] at hs

/-- `Insert` leaves the four members as they are, however it ends. -/
theorem Insert_sameMembers (env : Env) (ops : BackendOps β ι) (self : TensorHash β)
    (coords values : Tensor) (trace : List Call) :
    (TensorHash.Insert env ops self coords values trace).2.1.sameMembers self := by
  unfold TensorHash.Insert TensorHash.sameMembers
  cases hc : TensorHash.InsertChecks ops self coords values with
  | raised e => simp
  | undefined => simp
  | ok N =>
    simp only
    rcases hI : ops.Insert self.hashmap_ coords.blob values.blob N with ⟨r, hm⟩
    cases r with
    | raised k => simp
    | undefined => simp
    | ok p =>
      obtain ⟨its, masks⟩ := p
      simp only
      rcases hU : ops.UnpackIterators hm its masks
        (some (Tensor.New env [N, self.key_dim_] self.key_type_ coords.GetDevice).blob) none N
        with ⟨r2, hm2⟩
      cases r2 <;> simp

/-- `Query` leaves the four members as they are, however it ends. -/
theorem Query_sameMembers (env : Env) (ops : BackendOps β ι) (self : TensorHash β)
    (coords : Tensor) (trace : List Call) :
    (TensorHash.Query env ops self coords trace).2.1.sameMembers self := by
  unfold TensorHash.Query TensorHash.sameMembers
  cases hc : TensorHash.QueryChecks ops self coords with
  | raised e => simp
  | undefined => simp
  | ok N =>
    simp only
    rcases hI : ops.Find self.hashmap_ coords.blob N with ⟨r, hm⟩
    cases r with
    | raised k => simp
    | undefined => simp
    | ok p =>
      obtain ⟨its, masks⟩ := p
      simp only
      rcases hU : ops.UnpackIterators hm its masks none
        (some (Tensor.New env [N, self.value_dim_] self.value_type_ coords.GetDevice).blob) N
        with ⟨r2, hm2⟩
      cases r2 <;> simp

/-- `Assign` leaves the four members as they are, however it ends. -/
theorem Assign_sameMembers (env : Env) (ops : BackendOps β ι) (self : TensorHash β)
    (coords values : Tensor) (trace : List Call) :
    (TensorHash.Assign env ops self coords values trace).2.1.sameMembers self := by
  unfold TensorHash.Assign TensorHash.sameMembers
  cases hc : TensorHash.AssignChecks ops self coords values with
  | raised e => simp
  | undefined => simp
  | ok N =>
    simp only
    rcases hI : ops.Find self.hashmap_ coords.blob N with ⟨r, hm⟩
    cases r with
    | raised k => simp
    | undefined => simp
    | ok p =>
      obtain ⟨its, masks⟩ := p
      simp only
      rcases hU : ops.AssignIterators hm its masks values.blob N with ⟨r2, hm2⟩
      cases r2 <;> simp

/-- The mask that `Insert` returns. -/
theorem Insert_ok_mask (env : Env) (ops : BackendOps β ι) (self : TensorHash β)
    (coords values : Tensor) (trace : List Call) (r : Tensor × Tensor)
    (h : (TensorHash.Insert env ops self coords values trace).1 = .ok r) :
    ∃ N, TensorHash.InsertChecks ops self coords values = .ok N ∧
      r.1.GetShape = [N, self.key_dim_] ∧ r.1.GetDtype = self.key_type_ ∧
      r.1.GetDevice = coords.GetDevice ∧
      r.2.GetShape = [N] ∧ r.2.GetDtype = .Bool ∧ r.2.GetDevice = coords.GetDevice := by
  unfold TensorHash.Insert at h
  cases hc : TensorHash.InsertChecks ops self coords values with
  | raised e => simp [hc] at h
  | undefined => simp [hc] at h
  | ok N =>
    refine ⟨N, rfl, ?_⟩
    simp only [hc] at h
    rcases hI : ops.Insert self.hashmap_ coords.blob values.blob N with ⟨r1, hm⟩
    rw [hI] at h
    cases r1 with
    | raised k => simp at h
    | undefined => simp at h
    | ok p =>
      obtain ⟨its, masks⟩ := p
      simp only at h
      rcases hU : ops.UnpackIterators hm its masks
        (some (Tensor.New env [N, self.key_dim_] self.key_type_ coords.GetDevice).blob) none N
        with ⟨r2, hm2⟩
      rw [hU] at h
      cases r2 with
      | raised k => simp at h
      | undefined => simp at h
      | ok q =>
        simp only [Outcome.ok.injEq] at h
        subst h
        simp [Tensor.New, Tensor.GetShape, Tensor.GetDtype, Tensor.GetDevice]

/-- The mask that `Query` returns. -/
theorem Query_ok_mask (env : Env) (ops : BackendOps β ι) (self : TensorHash β)
    (coords : Tensor) (trace : List Call) (r : Tensor × Tensor)
    (h : (TensorHash.Query env ops self coords trace).1 = .ok r) :
    ∃ N, TensorHash.QueryChecks ops self coords = .ok N ∧
      r.1.GetShape = [N, self.value_dim_] ∧ r.1.GetDtype = self.value_type_ ∧
      r.1.GetDevice = coords.GetDevice ∧
      r.2.GetShape = [N] ∧ r.2.GetDtype = .Bool ∧ r.2.GetDevice = coords.GetDevice := by
  unfold TensorHash.Query at h
  cases hc : TensorHash.QueryChecks ops self coords with
  | raised e => simp [hc] at h
  | undefined => simp [hc] at h
  | ok N =>
    refine ⟨N, rfl, ?_⟩
    simp only [hc] at h
    rcases hI : ops.Find self.hashmap_ coords.blob N with ⟨r1, hm⟩
    rw [hI] at h
    cases r1 with
    | raised k => simp at h
    | undefined => simp at h
    | ok p =>
      obtain ⟨its, masks⟩ := p
      simp only at h
      rcases hU : ops.UnpackIterators hm its masks none
        (some (Tensor.New env [N, self.value_dim_] self.value_type_ coords.GetDevice).blob) N
        with ⟨r2, hm2⟩
      rw [hU] at h
      cases r2 with
      | raised k => simp at h
      | undefined => simp at h
      | ok q =>
        simp only [Outcome.ok.injEq] at h
        subst h
        simp [Tensor.New, Tensor.GetShape, Tensor.GetDtype, Tensor.GetDevice]

/-- The mask that `Assign` returns. -/
theorem Assign_ok_mask (env : Env) (ops : BackendOps β ι) (self : TensorHash β)
    (coords values : Tensor) (trace : List Call) (r : Tensor)
    (h : (TensorHash.Assign env ops self coords values trace).1 = .ok r) :
    ∃ N, TensorHash.AssignChecks ops self coords values = .ok N ∧
      r.GetShape = [N] ∧ r.GetDtype = .UInt8 ∧ r.GetDevice = coords.GetDevice := by
  unfold TensorHash.Assign at h
  cases hc : TensorHash.AssignChecks ops self coords values with
  | raised e => simp [hc] at h
  | undefined => simp [hc] at h
  | ok N =>
    refine ⟨N, rfl, ?_⟩
    simp only [hc] at h
    rcases hI : ops.Find self.hashmap_ coords.blob N with ⟨r1, hm⟩
    rw [hI] at h
    cases r1 with
    | raised k => simp at h
    | undefined => simp at h
    | ok p =>
      obtain ⟨its, masks⟩ := p
      simp only at h
      rcases hU : ops.AssignIterators hm its masks values.blob N with ⟨r2, hm2⟩
      rw [hU] at h
      cases r2 with
      | raised k => simp at h
      | undefined => simp at h
      | ok q =>
        simp only [Outcome.ok.injEq] at h
        subst h
        simp [Tensor.New, Tensor.GetShape, Tensor.GetDtype, Tensor.GetDevice]

/-- An object that the constructor hands back carries what its checks derived. -/
theorem Construct_ok_info (env : Env) (ops : BackendOps β ι)
    (coords values : Tensor) (insert : Bool) (trace : List Call) (h : TensorHash β)
    (hC : (TensorHash.Construct env ops coords values insert trace).1 = .ok h) :
    ∃ info, TensorHash.ConstructChecks env coords values = .ok info ∧
      h.key_type_ = info.key_type_ ∧ h.value_type_ = info.value_type_ ∧
      h.key_dim_ = info.key_dim_ ∧ h.value_dim_ = info.value_dim_ := by
  unfold TensorHash.Construct at hC
  cases hc : TensorHash.ConstructChecks env coords values with
  | raised e => simp [hc] at hC
  | undefined => simp [hc] at hC
  | ok info =>
    refine ⟨info, rfl, ?_⟩
    simp only [hc] at hC
    cases hH : ops.CreateDefaultHashmap (info.N / 2) info.key_size info.value_size
        coords.GetDevice with
    | raised k => rw [hH] at hC; simp at hC
    | undefined => rw [hH] at hC; simp at hC
    | ok hm =>
      rw [hH] at hC
      cases insert with
      | false =>
        simp only [Bool.false_eq_true, if_false, Outcome.ok.injEq] at hC
        subst hC
        simp
      | true =>
        simp only [if_true] at hC
        rcases hI : ops.Insert hm coords.blob values.blob info.N with ⟨r, hm1⟩
        rw [hI] at hC
        cases r with
        | raised k => simp at hC
        | undefined => simp at hC
        | ok q =>
          simp only [Outcome.ok.injEq] at hC
          subst hC
          simp

/-- What the constructor has stored when its checks pass. -/
theorem ConstructChecks_ok_info (env : Env) (coords values : Tensor) (info : KeyValueInfo)
    (h : TensorHash.ConstructChecks env coords values = .ok info) :
    coords.GetShape = [info.N, info.key_dim_] ∧
    values.GetShape[0]? = some info.N ∧
    valueDim values.GetShape = some info.value_dim_ ∧
    info.key_type_ = coords.GetDtype ∧ info.value_type_ = values.GetDtype ∧
    info.key_size = keySize env coords.GetDtype info.key_dim_ := by
  rw [ConstructChecks_eq] at h
  split at h
  · simp at h
  split at h
  · simp at h
  split at h
  · simp at h
  rename_i hlen
  simp only [ne_eq, not_not] at hlen
  rcases hcs : coords.GetShape with _ | ⟨a, _ | ⟨b, _ | ⟨c, t⟩⟩⟩
  · rw [hcs] at hlen; simp at hlen
  · rw [hcs] at hlen; simp at hlen
  · rw [hcs] at h
    rcases hvs : values.GetShape with _ | ⟨v0, _ | ⟨v1, vt⟩⟩
    · rw [hvs] at h; simp at h
    · rw [hvs] at h
      simp only [List.getElem?_cons_zero, List.headD_cons] at h
      split at h
      · simp at h
      rename_i hav
      simp only [ne_eq, not_not] at hav
      split at h
      · simp at h
      simp only [Outcome.ok.injEq] at h
      subst h
      subst hav
      simp [valueDim]
    · rw [hvs] at h
      simp only [List.getElem?_cons_zero, List.headD_cons] at h
      split at h
      · simp at h
      rename_i hav
      simp only [ne_eq, not_not] at hav
      split at h
      · simp at h
      simp only [Outcome.ok.injEq] at h
      subst h
      subst hav
      simp [valueDim]
  · rw [hcs] at hlen; simp at hlen

/-- The checks of `Insert` throw nothing but `LogError`. -/
theorem InsertChecks_raised_LogError (ops : BackendOps β ι) (self : TensorHash β)
    (coords values : Tensor) (e : Exception)
    (h : TensorHash.InsertChecks ops self coords values = .raised e) :
    ∃ m, e = .LogError m := by
  rw [InsertChecks_eq] at h
  split_ifs at h
  all_goals first
    | exact ⟨_, (Outcome.raised.inj h).symm⟩
    | (split at h
       · simp at h
       · split_ifs at h
         exact ⟨_, (Outcome.raised.inj h).symm⟩)

/-- The checks of `Query` throw nothing but `LogError`. -/
theorem QueryChecks_raised_LogError (ops : BackendOps β ι) (self : TensorHash β)
    (coords : Tensor) (e : Exception)
    (h : TensorHash.QueryChecks ops self coords = .raised e) :
    ∃ m, e = .LogError m := by
  rw [QueryChecks_eq] at h
  split_ifs at h
  all_goals exact ⟨_, (Outcome.raised.inj h).symm⟩

/-- Allocator calls of an `Insert` that returns. -/
theorem Insert_counts_ok (env : Env) (ops : BackendOps β ι) (self : TensorHash β)
    (coords values : Tensor) (trace : List Call) :
    ∀ r, (TensorHash.Insert env ops self coords values trace).1 = .ok r →
      mallocCount (TensorHash.Insert env ops self coords values trace).2.2
        = mallocCount trace + 1 ∧
      freeCount (TensorHash.Insert env ops self coords values trace).2.2
        = freeCount trace + 1 := by
  intro r h
  unfold TensorHash.Insert at h ⊢
  cases hc : TensorHash.InsertChecks ops self coords values with
  | raised e => simp [hc] at h
  | undefined => simp [hc] at h
  | ok N =>
    simp only [hc] at h ⊢
    rcases hI : ops.Insert self.hashmap_ coords.blob values.blob N with ⟨r1, hm⟩
    rw [hI] at h
    cases r1 with
    | raised k => simp at h
    | undefined => simp at h
    | ok p =>
      obtain ⟨its, masks⟩ := p
      simp only at h ⊢
      rcases hU : ops.UnpackIterators hm its masks
        (some (Tensor.New env [N, self.key_dim_] self.key_type_ coords.GetDevice).blob) none N
        with ⟨r2, hm2⟩
      rw [hU] at h
      cases r2 with
      | raised k => simp at h
      | undefined => simp at h
      | ok q => simp [mallocCount, freeCount, List.countP_append, List.countP_cons]

/-- Allocator calls of an `Insert` in which a backend call raises. -/
theorem Insert_counts_backend (env : Env) (ops : BackendOps β ι) (self : TensorHash β)
    (coords values : Tensor) (trace : List Call) :
    ∀ k, (TensorHash.Insert env ops self coords values trace).1 = .raised (.Backend k) →
      mallocCount (TensorHash.Insert env ops self coords values trace).2.2
        = mallocCount trace + 1 ∧
      freeCount (TensorHash.Insert env ops self coords values trace).2.2
        = freeCount trace := by
  intro k h
  unfold TensorHash.Insert at h ⊢
  cases hc : TensorHash.InsertChecks ops self coords values with
  | raised e =>
    obtain ⟨m, rfl⟩ := InsertChecks_raised_LogError ops self coords values e hc
    simp [hc] at h
  | undefined => simp [hc] at h
  | ok N =>
    simp only [hc] at h ⊢
    rcases hI : ops.Insert self.hashmap_ coords.blob values.blob N with ⟨r1, hm⟩
    rw [hI] at h
    cases r1 with
    | raised k => simp [mallocCount, freeCount, List.countP_append, List.countP_cons]
    | undefined => simp at h
    | ok p =>
      obtain ⟨its, masks⟩ := p
      simp only at h ⊢
      rcases hU : ops.UnpackIterators hm its masks
        (some (Tensor.New env [N, self.key_dim_] self.key_type_ coords.GetDevice).blob) none N
        with ⟨r2, hm2⟩
      rw [hU] at h
      cases r2 with
      | raised k => simp [mallocCount, freeCount, List.countP_append, List.countP_cons]
      | undefined => simp at h
      | ok q => simp at h

/-- Allocator calls of a `Query` that returns. -/
theorem Query_counts_ok (env : Env) (ops : BackendOps β ι) (self : TensorHash β)
    (coords : Tensor) (trace : List Call) :
    ∀ r, (TensorHash.Query env ops self coords trace).1 = .ok r →
      mallocCount (TensorHash.Query env ops self coords trace).2.2
        = mallocCount trace + 1 ∧
      freeCount (TensorHash.Query env ops self coords trace).2.2
        = freeCount trace + 1 := by
  intro r h
  unfold TensorHash.Query at h ⊢
  cases hc : TensorHash.QueryChecks ops self coords with
  | raised e => simp [hc] at h
  | undefined => simp [hc] at h
  | ok N =>
    simp only [hc] at h ⊢
    rcases hI : ops.Find self.hashmap_ coords.blob N with ⟨r1, hm⟩
    rw [hI] at h
    cases r1 with
    | raised k => simp at h
    | undefined => simp at h
    | ok p =>
      obtain ⟨its, masks⟩ := p
      simp only at h ⊢
      rcases hU : ops.UnpackIterators hm its masks
        none (some (Tensor.New env [N, self.value_dim_] self.value_type_ coords.GetDevice).blob) N
        with ⟨r2, hm2⟩
      rw [hU] at h
      cases r2 with
      | raised k => simp at h
      | undefined => simp at h
      | ok q => simp [mallocCount, freeCount, List.countP_append, List.countP_cons]

/-- Allocator calls of a `Query` in which a backend call raises. -/
theorem Query_counts_backend (env : Env) (ops : BackendOps β ι) (self : TensorHash β)
    (coords : Tensor) (trace : List Call) :
    ∀ k, (TensorHash.Query env ops self coords trace).1 = .raised (.Backend k) →
      mallocCount (TensorHash.Query env ops self coords trace).2.2
        = mallocCount trace + 1 ∧
      freeCount (TensorHash.Query env ops self coords trace).2.2
        = freeCount trace := by
  intro k h
  unfold TensorHash.Query at h ⊢
  cases hc : TensorHash.QueryChecks ops self coords with
  | raised e =>
    obtain ⟨m, rfl⟩ := QueryChecks_raised_LogError ops self coords e hc
    simp [hc] at h
  | undefined => simp [hc] at h
  | ok N =>
    simp only [hc] at h ⊢
    rcases hI : ops.Find self.hashmap_ coords.blob N with ⟨r1, hm⟩
    rw [hI] at h
    cases r1 with
    | raised k => simp [mallocCount, freeCount, List.countP_append, List.countP_cons]
    | undefined => simp at h
    | ok p =>
      obtain ⟨its, masks⟩ := p
      simp only at h ⊢
      rcases hU : ops.UnpackIterators hm its masks
        none (some (Tensor.New env [N, self.value_dim_] self.value_type_ coords.GetDevice).blob) N
        with ⟨r2, hm2⟩
      rw [hU] at h
      cases r2 with
      | raised k => simp [mallocCount, freeCount, List.countP_append, List.countP_cons]
      | undefined => simp at h
      | ok q => simp at h

/-- Allocator calls of an `Assign` that returns. -/
theorem Assign_counts_ok (env : Env) (ops : BackendOps β ι) (self : TensorHash β)
    (coords values : Tensor) (trace : List Call) :
    ∀ r, (TensorHash.Assign env ops self coords values trace).1 = .ok r →
      mallocCount (TensorHash.Assign env ops self coords values trace).2.2
        = mallocCount trace + 1 ∧
      freeCount (TensorHash.Assign env ops self coords values trace).2.2
        = freeCount trace + 1 := by
  intro r h
  unfold TensorHash.Assign at h ⊢
  cases hc : TensorHash.AssignChecks ops self coords values with
  | raised e => simp [hc] at h
  | undefined => simp [hc] at h
  | ok N =>
    simp only [hc] at h ⊢
    rcases hI : ops.Find self.hashmap_ coords.blob N with ⟨r1, hm⟩
    rw [hI] at h
    cases r1 with
    | raised k => simp at h
    | undefined => simp at h
    | ok p =>
      obtain ⟨its, masks⟩ := p
      simp only at h ⊢
      rcases hU : ops.AssignIterators hm its masks values.blob N with ⟨r2, hm2⟩
      rw [hU] at h
      cases r2 with
      | raised k => simp at h
      | undefined => simp at h
      | ok q => simp [mallocCount, freeCount, List.countP_append, List.countP_cons]

/-- Allocator calls of an `Assign` in which a backend call raises. -/
theorem Assign_counts_backend (env : Env) (ops : BackendOps β ι) (self : TensorHash β)
    (coords values : Tensor) (trace : List Call) :
    ∀ k, (TensorHash.Assign env ops self coords values trace).1 = .raised (.Backend k) →
      mallocCount (TensorHash.Assign env ops self coords values trace).2.2
        = mallocCount trace + 1 ∧
      freeCount (TensorHash.Assign env ops self coords values trace).2.2
        = freeCount trace := by
  intro k h
  unfold TensorHash.Assign at h ⊢
  cases hc : TensorHash.AssignChecks ops self coords values with
  | raised e =>
    obtain ⟨m, rfl⟩ := InsertChecks_raised_LogError ops self coords values e (by rw [← AssignChecks_eq_InsertChecks]; exact hc)
    simp [hc] at h
  | undefined => simp [hc] at h
  | ok N =>
    simp only [hc] at h ⊢
    rcases hI : ops.Find self.hashmap_ coords.blob N with ⟨r1, hm⟩
    rw [hI] at h
    cases r1 with
    | raised k => simp [mallocCount, freeCount, List.countP_append, List.countP_cons]
    | undefined => simp at h
    | ok p =>
      obtain ⟨its, masks⟩ := p
      simp only at h ⊢
      rcases hU : ops.AssignIterators hm its masks values.blob N with ⟨r2, hm2⟩
      rw [hU] at h
      cases r2 with
      | raised k => simp [mallocCount, freeCount, List.countP_append, List.countP_cons]
      | undefined => simp at h
      | ok q => simp at h

theorem findSlot_cons (k : List Nat) (s : List Nat × List Nat)
    (rest : List (List Nat × List Nat)) :
    findSlot k (s :: rest) = if s.1 = k then some 0 else (findSlot k rest).map (· + 1) := rfl

theorem findSlot_append_none (k : List Nat) (l l' : List (List Nat × List Nat))
    (h : findSlot k l = none) :
    findSlot k (l ++ l') = (findSlot k l').map (· + l.length) := by
  induction l with
  | nil => simp
  | cons s rest ih =>
    rw [findSlot_cons] at h
    split at h
    · simp at h
    · rename_i hne
      simp only [Option.map_eq_none'] at h
      rw [List.cons_append, findSlot_cons, if_neg hne, ih h, Option.map_map]
      congr 1

theorem findSlot_append_some (k : List Nat) (l l' : List (List Nat × List Nat)) (j : Nat)
    (h : findSlot k l = some j) :
    findSlot k (l ++ l') = some j := by
  induction l generalizing j with
  | nil => simp [findSlot] at h
  | cons s rest ih =>
    rw [findSlot_cons] at h
    rw [List.cons_append, findSlot_cons]
    split at h
    · rename_i heq
      rw [if_pos heq, ← h]
    · rename_i hne
      rw [if_neg hne]
      cases hr : findSlot k rest with
      | none => simp [hr] at h
      | some j' =>
        rw [ih j' hr]
        rw [hr] at h
        exact h

theorem findSlot_singleton_ne (k k' v : List Nat) (h : k' ≠ k) :
    findSlot k [(k', v)] = none := by
  simp [findSlot, h]

/-- Rows with pairwise distinct keys, none of them stored, for which there is
room, each fill a new slot, in order. -/
theorem insertRows_fresh (cap : Nat) (kvs : List (List Nat × List Nat)) :
    ∀ slots : List (List Nat × List Nat),
      (kvs.map Prod.fst).Nodup → (∀ kv ∈ kvs, findSlot kv.1 slots = none) →
      slots.length + kvs.length ≤ cap →
      insertRows cap slots kvs
        = (.ok (List.range' slots.length kvs.length, List.replicate kvs.length true),
           slots ++ kvs) := by
  induction kvs with
  | nil => intro slots _ _ _; simp [insertRows]
  | cons kv rest ih =>
    intro slots hnd hfresh hcap
    obtain ⟨k, v⟩ := kv
    have hk : findSlot k slots = none := hfresh (k, v) (List.mem_cons_self _ _)
    simp only [List.length_cons] at hcap
    have hlt : slots.length < cap := by omega
    simp only [List.map_cons, List.nodup_cons] at hnd
    have hfresh' : ∀ kv ∈ rest, findSlot kv.1 (slots ++ [(k, v)]) = none := by
      intro kv hkv
      rw [findSlot_append_none _ _ _ (hfresh kv (List.mem_cons_of_mem _ hkv))]
      have hne : k ≠ kv.1 := by
        intro heq
        exact hnd.1 (heq ▸ List.mem_map_of_mem Prod.fst hkv)
      rw [findSlot_singleton_ne _ _ _ hne]
      rfl
    have := ih (slots ++ [(k, v)]) hnd.2 hfresh' (by simp; omega)
    simp only [insertRows, hk, if_pos hlt, this, consRow, List.length_append, List.length_cons,
      List.length_nil, List.append_assoc, List.singleton_append, List.replicate_succ]
    simp [List.range'_succ]

/-- Rows whose keys are all stored write nothing. -/
theorem insertRows_present (cap : Nat) (kvs : List (List Nat × List Nat)) :
    ∀ slots : List (List Nat × List Nat),
      (∀ kv ∈ kvs, (findSlot kv.1 slots).isSome = true) →
      insertRows cap slots kvs
        = (.ok (kvs.map (fun kv => (findSlot kv.1 slots).getD 0),
                List.replicate kvs.length false), slots) := by
  induction kvs with
  | nil => intro slots _; simp [insertRows]
  | cons kv rest ih =>
    intro slots h
    obtain ⟨k, v⟩ := kv
    have hk := h (k, v) (List.mem_cons_self _ _)
    obtain ⟨j, hj⟩ := Option.isSome_iff_exists.mp hk
    have := ih slots (fun kv hkv => h kv (List.mem_cons_of_mem _ hkv))
    simp only at hj
    simp [insertRows, hj, this, consRow, List.replicate_succ]

/-- After rows with distinct keys have each filled a new slot, each key is found
in its slot. -/
theorem findSlot_after_insert (kvs : List (List Nat × List Nat)) :
    ∀ slots : List (List Nat × List Nat),
      (kvs.map Prod.fst).Nodup → (∀ kv ∈ kvs, findSlot kv.1 slots = none) →
      (kvs.map Prod.fst).map (fun k => findSlot k (slots ++ kvs))
        = (List.range' slots.length kvs.length).map some := by
  induction kvs with
  | nil => intro slots _ _; simp
  | cons kv rest ih =>
    intro slots hnd hfresh
    obtain ⟨k, v⟩ := kv
    have hk : findSlot k slots = none := hfresh (k, v) (List.mem_cons_self _ _)
    simp only [List.map_cons, List.nodup_cons] at hnd
    have hfresh' : ∀ kv ∈ rest, findSlot kv.1 (slots ++ [(k, v)]) = none := by
      intro kv hkv
      rw [findSlot_append_none _ _ _ (hfresh kv (List.mem_cons_of_mem _ hkv))]
      have hne : k ≠ kv.1 := by
        intro heq
        exact hnd.1 (heq ▸ List.mem_map_of_mem Prod.fst hkv)
      rw [findSlot_singleton_ne _ _ _ hne]
      rfl
    have := ih (slots ++ [(k, v)]) hnd.2 hfresh'
    simp only [List.append_assoc, List.singleton_append, List.length_append, List.length_cons,
      List.length_nil] at this
    simp only [List.map_cons, List.length_cons, List.range'_succ, this]
    congr 1
    rw [findSlot_append_none _ _ _ hk]
    simp [findSlot]

theorem rowOf_succ (buf : List Nat) (size i : Nat) :
    rowOf buf size (i + 1) = rowOf (buf.drop size) size i := by
  unfold rowOf
  rw [List.drop_drop]
  congr 2
  ring

theorem rowsOf_succ (buf : List Nat) (size N : Nat) :
    rowsOf buf size (N + 1) = buf.take size :: rowsOf (buf.drop size) size N := by
  unfold rowsOf
  rw [List.range_succ_eq_map]
  simp [rowOf_succ, Function.comp_def, rowOf]
  intro a _
  congr 2
  ring

theorem length_rowsOf (buf : List Nat) (size N : Nat) : (rowsOf buf size N).length = N := by
  simp [rowsOf]

/-- A buffer of exactly `N` rows is the concatenation of its rows. -/
theorem flatten_rowsOf (size N : Nat) :
    ∀ buf : List Nat, buf.length = N * size → (rowsOf buf size N).flatten = buf := by
  induction N with
  | zero =>
    intro buf h
    simp at h
    simp [rowsOf, h]
  | succ n ih =>
    intro buf h
    rw [rowsOf_succ, List.flatten_cons, ih (buf.drop size) (by simp [h, Nat.succ_mul])]
    exact List.take_append_drop _ _

/-- Unpacking the slots that a batch has just filled gives back the batch. -/
theorem unpackRows_all (slots kvs : List (List Nat × List Nat))
    (sel : List Nat × List Nat → List Nat) (size : Nat) (buf : List Nat) :
    unpackRows (slots ++ kvs) sel (List.range' slots.length kvs.length)
        (List.replicate kvs.length true) size kvs.length buf
      = (kvs.map sel).flatten := by
  unfold unpackRows
  rw [List.flatMap_def]
  congr 1
  apply List.ext_getElem
  · simp
  · intro i h1 h2
    simp only [List.length_map, List.length_range] at h1
    simp [List.getD, List.getElem?_replicate, h1, List.getElem?_range', List.getElem?_append_right]
    congr 1
    rw [List.getElem_append_right (by omega)]
    simp

/-- `Insert` over the backend of the specification, once its checks and the
backend batch have passed. -/
theorem SpecInsert_ok (env : Env) (self : TensorHash HashBackend) (coords values : Tensor)
    (trace : List Call) (N : Nat) (its : List Nat) (masks : List Bool)
    (slots1 : List (List Nat × List Nat))
    (hc : TensorHash.InsertChecks (SpecBackend env) self coords values = .ok N)
    (hi : insertRows self.hashmap_.capacity self.hashmap_.slots
        ((rowsOf coords.blob self.hashmap_.key_size N).zip
          (rowsOf values.blob self.hashmap_.value_size N)) = (.ok (its, masks), slots1)) :
    TensorHash.Insert env (SpecBackend env) self coords values trace
      = (.ok ({ Tensor.New env [N, self.key_dim_] self.key_type_ coords.GetDevice with
                blob := unpackRows slots1 Prod.fst its masks self.hashmap_.key_size N
                  (Tensor.New env [N, self.key_dim_] self.key_type_ coords.GetDevice).blob },
              { Tensor.New env [N] Dtype.Bool coords.GetDevice with blob := maskBytes masks }),
         { self with hashmap_ := { self.hashmap_ with slots := slots1 } },
         trace ++ [Call.Malloc ((env.sizeof_iterator_t * N) % SIZE_MOD) coords.GetDevice,
           Call.Insert N, Call.UnpackIterators true false N, Call.Free coords.GetDevice]) := by
  have hI : (SpecBackend env).Insert self.hashmap_ coords.blob values.blob N
      = (.ok (its, masks), { self.hashmap_ with slots := slots1 }) := by
    simp [SpecBackend, hi]
  unfold TensorHash.Insert
  simp only [hc, hI]
  simp [SpecBackend]

/-- `Query` over the backend of the specification, once its checks have passed. -/
theorem SpecQuery_ok (env : Env) (self : TensorHash HashBackend) (coords : Tensor)
    (trace : List Call) (N : Nat)
    (hc : TensorHash.QueryChecks (SpecBackend env) self coords = .ok N) :
    TensorHash.Query env (SpecBackend env) self coords trace
      = (.ok ({ Tensor.New env [N, self.value_dim_] self.value_type_ coords.GetDevice with
                blob := unpackRows self.hashmap_.slots Prod.snd
                  (findRows self.hashmap_.slots
                    (rowsOf coords.blob self.hashmap_.key_size N)).1
                  (findRows self.hashmap_.slots
                    (rowsOf coords.blob self.hashmap_.key_size N)).2
                  self.hashmap_.value_size N
                  (Tensor.New env [N, self.value_dim_] self.value_type_ coords.GetDevice).blob },
              { Tensor.New env [N] Dtype.Bool coords.GetDevice with
                blob := maskBytes (findRows self.hashmap_.slots
                    (rowsOf coords.blob self.hashmap_.key_size N)).2 }),
         self,
         trace ++ [Call.Malloc ((env.sizeof_iterator_t * N) % SIZE_MOD) coords.GetDevice,
           Call.Find N, Call.UnpackIterators false true N, Call.Free coords.GetDevice]) := by
  have hF : (SpecBackend env).Find self.hashmap_ coords.blob N
      = (.ok (findRows self.hashmap_.slots (rowsOf coords.blob self.hashmap_.key_size N)),
         self.hashmap_) := rfl
  unfold TensorHash.Query
  simp only [hc, hF]
  simp [SpecBackend]

theorem maskBytes_replicate_true (n : Nat) :
    maskBytes (List.replicate n true) = List.replicate n 1 := by
  simp [maskBytes]

theorem maskBytes_replicate_false (n : Nat) :
    maskBytes (List.replicate n false) = List.replicate n 0 := by
  simp [maskBytes]

end Lemmas

/-! ## Validation: no backend call before an error, and the order of the checks -/

section Validation

variable {β ι : Type}

/-- C1, as stated, fails. Three inputs fail the validation that the
specification lists and reach the backend all the same. Keys of shape `[0, 3]`
with values of shape `[0]` are empty; `Insert`, `Query` and `Assign` call the
backend with `N = 0`. Values of shape `[2, 1, 7]` are neither `[N]` nor
`[N, value_dim]`; `Insert` and `Assign` call the backend. Keys and values on
accelerator 1 do not reside on the device of a backend on accelerator 0;
`Insert` calls the backend. After each call the backend has recorded the calls
it received. -/
theorem inputs_failing_listed_validation_reach_the_backend :
    earliest (specCheckList Recorder sampleHash (sampleTensor [0, 3] .Int64)
        (sampleTensor [0] .Int64)) = some .EmptyInput ∧
    (TensorHash.Insert sampleEnv Recorder sampleHash (sampleTensor [0, 3] .Int64)
        (sampleTensor [0] .Int64) []).2.1.hashmap_
      = (cpu0, [Call.Insert 0, Call.UnpackIterators true false 0]) ∧
    (TensorHash.Query sampleEnv Recorder sampleHash (sampleTensor [0, 3] .Int64)
        []).2.1.hashmap_
      = (cpu0, [Call.Find 0, Call.UnpackIterators false true 0]) ∧
    (TensorHash.Assign sampleEnv Recorder sampleHash (sampleTensor [0, 3] .Int64)
        (sampleTensor [0] .Int64) []).2.1.hashmap_
      = (cpu0, [Call.Find 0, Call.AssignIterators 0]) ∧
    earliest (specCheckList Recorder sampleHash (sampleTensor [2, 3] .Int64)
        (sampleTensor [2, 1, 7] .Int64)) = some .ShapeMismatch ∧
    (TensorHash.Insert sampleEnv Recorder sampleHash (sampleTensor [2, 3] .Int64)
        (sampleTensor [2, 1, 7] .Int64) []).2.1.hashmap_
      = (cpu0, [Call.Insert 2, Call.UnpackIterators true false 2]) ∧
    (TensorHash.Assign sampleEnv Recorder sampleHash (sampleTensor [2, 3] .Int64)
        (sampleTensor [2, 1, 7] .Int64) []).2.1.hashmap_
      = (cpu0, [Call.Find 2, Call.AssignIterators 2]) ∧
    earliest (specCheckList Recorder
        { sampleHash with hashmap_ := ({ device_type_ := .CUDA, device_id_ := 0 }, []) }
        (cudaTensor 1 [2, 3] .Int64) (cudaTensor 1 [2] .Int64)) = some .DeviceMismatch ∧
    (TensorHash.Insert sampleEnv Recorder
        { sampleHash with hashmap_ := ({ device_type_ := .CUDA, device_id_ := 0 }, []) }
        (cudaTensor 1 [2, 3] .Int64) (cudaTensor 1 [2] .Int64) []).2.1.hashmap_
      = ({ device_type_ := .CUDA, device_id_ := 0 },
         [Call.Insert 2, Call.UnpackIterators true false 2]) := by
  refine ⟨by decide, by decide, by decide, by decide, by decide, by decide, by decide,
    by decide, by decide⟩

/-- C1, amended: a call of `Insert`, `Query`, `Assign` or of the constructor in
which one of the checks that the source performs fails raises the error of
`utility::LogError` having made no call at all: the members, the backend state
and the history of calls are those from before the call, and the constructor
hands back no object and has not reached `CreateDefaultHashmap`. The checks are,
for `Insert` and `Assign`: device kind of the keys against the hashmap's,
contiguity, element types, keys of rank 0, keys of rank 2 with second extent
`key_dim_`, value dimension; for `Query`: device kind, contiguity of the keys,
key type, key shape; for the constructor: device kinds of the two arrays,
contiguity, keys of rank 2, equal first extents, key size. Conversely every call
that ends with a validation error has made no call. -/
theorem validation_failure_makes_no_backend_call (env : Env) (ops : BackendOps β ι)
    (self : TensorHash β) (coords values : Tensor) (insert : Bool) (trace : List Call) :
    ((DeviceFails ops self coords ∨ ContiguityFails coords values ∨
        TypeFails self coords values ∨ EmptyFails coords ∨ KeyShapeFails self coords ∨
        ValueShapeFails self values) →
      ∃ m, TensorHash.Insert env ops self coords values trace
            = (.raised (.LogError m), self, trace)) ∧
    ((DeviceFails ops self coords ∨ coords.IsContiguous = false ∨
        self.key_type_ ≠ coords.GetDtype ∨ KeyShapeFails self coords) →
      ∃ m, TensorHash.Query env ops self coords trace
            = (.raised (.LogError m), self, trace)) ∧
    ((DeviceFails ops self coords ∨ ContiguityFails coords values ∨
        TypeFails self coords values ∨ EmptyFails coords ∨ KeyShapeFails self coords ∨
        ValueShapeFails self values) →
      ∃ m, TensorHash.Assign env ops self coords values trace
            = (.raised (.LogError m), self, trace)) ∧
    ((ConstructDeviceFails coords values ∨ ContiguityFails coords values ∨
        coords.GetShape.length ≠ 2 ∨ SizeFails coords values ∨
        (values.GetShape ≠ [] ∧ KeySizeFails env coords)) →
      ∃ m, TensorHash.Construct env ops coords values insert trace
            = (.raised (.LogError m), trace)) ∧
    (∀ m, (TensorHash.Insert env ops self coords values trace).1 = .raised (.LogError m) →
      (TensorHash.Insert env ops self coords values trace).2 = (self, trace)) ∧
    (∀ m, (TensorHash.Query env ops self coords trace).1 = .raised (.LogError m) →
      (TensorHash.Query env ops self coords trace).2 = (self, trace)) ∧
    (∀ m, (TensorHash.Assign env ops self coords values trace).1 = .raised (.LogError m) →
      (TensorHash.Assign env ops self coords values trace).2 = (self, trace)) ∧
    (∀ m, (TensorHash.Construct env ops coords values insert trace).1
          = .raised (.LogError m) →
      (TensorHash.Construct env ops coords values insert trace).2 = trace) := by
  refine ⟨?_, ?_, ?_, ?_, ?_, ?_, ?_, ?_⟩
  · intro h
    obtain ⟨m, hm⟩ := InsertChecks_fails ops self coords values h
    exact ⟨m, Insert_of_checks_raised env ops self coords values trace _ hm⟩
  · intro h
    obtain ⟨m, hm⟩ := QueryChecks_fails ops self coords h
    exact ⟨m, Query_of_checks_raised env ops self coords trace _ hm⟩
  · intro h
    obtain ⟨m, hm⟩ := InsertChecks_fails ops self coords values h
    rw [← AssignChecks_eq_InsertChecks] at hm
    exact ⟨m, Assign_of_checks_raised env ops self coords values trace _ hm⟩
  · intro h
    obtain ⟨m, hm⟩ := ConstructChecks_fails env coords values h
    exact ⟨m, Construct_of_checks_raised env ops coords values insert trace _ hm⟩
  · intro m h
    rw [(Insert_LogError env ops self coords values trace m h).2]
  · intro m h
    rw [(Query_LogError env ops self coords trace m h).2]
  · intro m h
    rw [(Assign_LogError env ops self coords values trace m h).2]
  · intro m h
    rw [(Construct_LogError env ops coords values insert trace m h).2]

/-- C1, amended, at a concrete input: `Insert` of keys of the wrong element type
on the recording backend raises and the backend has recorded nothing. -/
theorem validation_failure_makes_no_backend_call_witness :
    ∃ m, TensorHash.Insert sampleEnv Recorder sampleHash
          (sampleTensor [2, 3] .Int32) (sampleTensor [2] .Int64) []
        = (.raised (.LogError m), sampleHash, []) :=
  (validation_failure_makes_no_backend_call sampleEnv Recorder sampleHash
    (sampleTensor [2, 3] .Int32) (sampleTensor [2] .Int64) false []).1
    (Or.inr (Or.inr (Or.inl (Or.inl (by decide)))))

end Validation

/-! ## Shapes accepted by `Insert`, `Assign` and the constructor -/

section Shapes

variable {β ι : Type}

/-- C3, as stated, fails. On an index for keys of 3 and values of 1 element,
with 2 key rows: `Insert` and `Assign` accept values of 5 rows and values of
rank 3, and for values of rank 0 the value dimension is read past the end of
the shape, so that no `ShapeMismatch` is raised in any of these cases. -/
theorem insert_assign_accept_other_row_counts_and_ranks :
    (TensorHash.Insert sampleEnv Recorder sampleHash (sampleTensor [2, 3] .Int64)
        (sampleTensor [5] .Int64) []).1.isOk = true ∧
    (TensorHash.Insert sampleEnv Recorder sampleHash (sampleTensor [2, 3] .Int64)
        (sampleTensor [2, 1, 7] .Int64) []).1.isOk = true ∧
    (TensorHash.Assign sampleEnv Recorder sampleHash (sampleTensor [2, 3] .Int64)
        (sampleTensor [5] .Int64) []).1.isOk = true ∧
    (TensorHash.Assign sampleEnv Recorder sampleHash (sampleTensor [2, 3] .Int64)
        (sampleTensor [2, 1, 7] .Int64) []).1.isOk = true ∧
    (TensorHash.Insert sampleEnv Recorder sampleHash (sampleTensor [2, 3] .Int64)
        (sampleTensor [] .Int64) []).1 = .undefined ∧
    (TensorHash.Assign sampleEnv Recorder sampleHash (sampleTensor [2, 3] .Int64)
        (sampleTensor [] .Int64) []).1 = .undefined := by
  refine ⟨by decide, by decide, by decide, by decide, by decide, by decide⟩

/-- C3, amended: when the checks of `Insert` or `Assign` pass, and so whenever
the call returns normally, the keys have shape `[N, key_dim_]` and the values
are of rank 1 with `value_dim_ = 1`, or of rank 2 or more with second extent
`value_dim_`. -/
theorem insert_assign_accepted_shapes (env : Env) (ops : BackendOps β ι)
    (self : TensorHash β) (coords values : Tensor) (trace : List Call) :
    (∀ N, TensorHash.InsertChecks ops self coords values = .ok N →
      coords.GetShape = [N, self.key_dim_] ∧
      ((values.GetShape.length = 1 ∧ self.value_dim_ = 1) ∨
       (2 ≤ values.GetShape.length ∧ values.GetShape[1]? = some self.value_dim_))) ∧
    (∀ N, TensorHash.AssignChecks ops self coords values = .ok N →
      coords.GetShape = [N, self.key_dim_] ∧
      ((values.GetShape.length = 1 ∧ self.value_dim_ = 1) ∨
       (2 ≤ values.GetShape.length ∧ values.GetShape[1]? = some self.value_dim_))) ∧
    (∀ r, (TensorHash.Insert env ops self coords values trace).1 = .ok r →
      ∃ N, coords.GetShape = [N, self.key_dim_] ∧
      ((values.GetShape.length = 1 ∧ self.value_dim_ = 1) ∨
       (2 ≤ values.GetShape.length ∧ values.GetShape[1]? = some self.value_dim_))) ∧
    (∀ r, (TensorHash.Assign env ops self coords values trace).1 = .ok r →
      ∃ N, coords.GetShape = [N, self.key_dim_] ∧
      ((values.GetShape.length = 1 ∧ self.value_dim_ = 1) ∨
       (2 ≤ values.GetShape.length ∧ values.GetShape[1]? = some self.value_dim_))) := by
  have key : ∀ N, TensorHash.InsertChecks ops self coords values = .ok N →
      coords.GetShape = [N, self.key_dim_] ∧
      ((values.GetShape.length = 1 ∧ self.value_dim_ = 1) ∨
       (2 ≤ values.GetShape.length ∧ values.GetShape[1]? = some self.value_dim_)) := by
    intro N h
    obtain ⟨_, _, _, hs, hv⟩ := (InsertChecks_ok_iff ops self coords values N).1 h
    exact ⟨hs, (valueDim_eq_some _ _).1 hv⟩
  refine ⟨key, ?_, ?_, ?_⟩
  · intro N h
    rw [AssignChecks_eq_InsertChecks] at h
    exact key N h
  · intro r h
    obtain ⟨N, hN⟩ := Insert_ok_checks env ops self coords values trace r h
    exact ⟨N, key N hN⟩
  · intro r h
    obtain ⟨N, hN⟩ := Assign_ok_checks env ops self coords values trace r h
    rw [AssignChecks_eq_InsertChecks] at hN
    exact ⟨N, key N hN⟩

/-- C3, amended, at a concrete input: the checks of `Insert` pass for 2 key rows
of 3 elements with 2 values, and the shapes are as stated. -/
theorem insert_assign_accepted_shapes_witness :
    (sampleTensor [2, 3] .Int64).GetShape = [2, sampleHash.key_dim_] ∧
    (((sampleTensor [2] .Int64).GetShape.length = 1 ∧ sampleHash.value_dim_ = 1) ∨
     (2 ≤ (sampleTensor [2] .Int64).GetShape.length ∧
      (sampleTensor [2] .Int64).GetShape[1]? = some sampleHash.value_dim_)) :=
  (insert_assign_accepted_shapes sampleEnv Recorder sampleHash (sampleTensor [2, 3] .Int64)
    (sampleTensor [2] .Int64) []).1 2 (by decide)

/-- C4, as stated, fails. For keys of shape `[2, 3]` the constructor accepts
values of shape `[2, 4, 5]` (rank 3), and for values of rank 0 its shape check
reads `values_shape[0]` past the end instead of raising `ShapeMismatch`. -/
theorem construct_accepts_values_of_rank_three :
    TensorHash.ShapeCheck [2, 3] [2, 4, 5] = .ok () ∧
    (TensorHash.Construct sampleEnv Recorder (sampleTensor [2, 3] .Int64)
        (sampleTensor [2, 4, 5] .Int64) false []).1.isOk = true ∧
    TensorHash.ShapeCheck [2, 3] [] = .undefined ∧
    (TensorHash.Construct sampleEnv Recorder (sampleTensor [2, 3] .Int64)
        (sampleTensor [] .Int64) false []).1 = .undefined := by
  refine ⟨by decide, by decide, by decide, by decide⟩

/-- C4, amended: the shape check of the constructor passes if and only if the
keys are of rank 2 and the values are of rank 1 or more with the same first
extent; it raises, and then always an error of kind `ShapeMismatch`, if and only
if the keys are not of rank 2 or the values are of rank 1 or more with another
first extent. For arrays that pass the device and contiguity checks the
constructor as a whole raises a shape error in exactly those cases. -/
theorem construct_shape_validation (env : Env) (ops : BackendOps β ι)
    (coords values : Tensor) (insert : Bool) (trace : List Call) :
    (TensorHash.ShapeCheck coords.GetShape values.GetShape = .ok () ↔
      coords.GetShape.length = 2 ∧ values.GetShape ≠ [] ∧
      coords.GetShape[0]? = values.GetShape[0]?) ∧
    ((∃ e, TensorHash.ShapeCheck coords.GetShape values.GetShape = .raised e) ↔
      coords.GetShape.length ≠ 2 ∨
      (values.GetShape ≠ [] ∧ coords.GetShape[0]? ≠ values.GetShape[0]?)) ∧
    (∀ e, TensorHash.ShapeCheck coords.GetShape values.GetShape = .raised e →
      e.kind = .ShapeMismatch) ∧
    (¬ ConstructDeviceFails coords values → ¬ ContiguityFails coords values →
      ((∃ m, (TensorHash.Construct env ops coords values insert trace).1
              = .raised (.LogError m) ∧ m.kind = .ShapeMismatch) ↔
        coords.GetShape.length ≠ 2 ∨
        (values.GetShape ≠ [] ∧ coords.GetShape[0]? ≠ values.GetShape[0]?))) := by
  have hcs : ∀ (cs vs : SizeVector),
      (TensorHash.ShapeCheck cs vs = .ok () ↔ cs.length = 2 ∧ vs ≠ [] ∧ cs[0]? = vs[0]?) ∧
      ((∃ e, TensorHash.ShapeCheck cs vs = .raised e) ↔
        cs.length ≠ 2 ∨ (vs ≠ [] ∧ cs[0]? ≠ vs[0]?)) ∧
      (∀ e, TensorHash.ShapeCheck cs vs = .raised e → e.kind = .ShapeMismatch) := by
    intro cs vs
    rw [ShapeCheck_eq]
    rcases cs with _ | ⟨a, _ | ⟨b, _ | ⟨c, t⟩⟩⟩
    · simp [Exception.kind, Message.kind]
    · simp [Exception.kind, Message.kind]
    · rcases vs with _ | ⟨v0, vt⟩
      · simp
      · by_cases hav : a = v0
        · simp [hav]
        · simp [hav, Exception.kind, Message.kind]
    · simp [Exception.kind, Message.kind]
  obtain ⟨h1, h2, h3⟩ := hcs coords.GetShape values.GetShape
  refine ⟨h1, h2, h3, ?_⟩
  intro hd hc
  constructor
  · rintro ⟨m, hm, hk⟩
    have hchk := (Construct_LogError env ops coords values insert trace m hm).1
    rw [ConstructChecks_eq, if_neg hd, if_neg hc] at hchk
    by_cases hr : coords.GetShape.length ≠ 2
    · exact Or.inl hr
    · right
      rw [if_neg hr] at hchk
      simp only [ne_eq, not_not] at hr
      rcases hvs : values.GetShape with _ | ⟨v0, vt⟩
      · rw [hvs] at hchk; simp at hchk
      · rw [hvs] at hchk
        simp only [List.getElem?_cons_zero] at hchk
        refine ⟨by simp, ?_⟩
        by_cases h4 : coords.GetShape.headD 0 ≠ v0
        · rcases hcs2 : coords.GetShape with _ | ⟨a, ct⟩
          · rw [hcs2] at hr; simp at hr
          · rw [hcs2] at h4
            simpa using h4
        · rw [if_neg h4] at hchk
          split at hchk
          · simp only [Outcome.raised.injEq, Exception.LogError.injEq] at hchk
            subst hchk
            simp [Message.kind] at hk
          · simp at hchk
  · intro h
    have hsc : ∃ e, TensorHash.ShapeCheck coords.GetShape values.GetShape = .raised e := h2.2 h
    obtain ⟨e, he⟩ := hsc
    have hk := h3 e he
    have hchk : TensorHash.ConstructChecks env coords values = .raised e := by
      unfold TensorHash.ConstructChecks
      have hc2 : ¬ ((!coords.IsContiguous || !values.IsContiguous) = true) := by
        simpa [ContiguityFails] using hc
      rw [if_neg hd, if_neg hc2, he]
      rfl
    rw [Construct_of_checks_raised env ops coords values insert trace e hchk]
    cases e with
    | LogError m => exact ⟨m, rfl, hk⟩
    | Backend k =>
      exfalso
      rw [ShapeCheck_eq] at he
      split at he
      · simp at he
      · split at he
        · simp at he
        · split at he <;> simp at he

/-- C5, as stated, fails. Keys of shape `[0, 2^61]` with 8-byte elements have a
row of `2^64` bytes, more than the 32 bytes allowed, yet the constructor accepts
them: the product, taken in 64-bit arithmetic, is 0. -/
theorem key_size_product_wraps_around :
    (sampleTensor [0, 2 ^ 61] .Int64).GetShape[1]? = some (2 ^ 61) ∧
    2 ^ 61 * sampleEnv.ByteSize (sampleTensor [0, 2 ^ 61] .Int64).GetDtype
      > sampleEnv.MAX_KEY_BYTESIZE ∧
    TensorHash.ShapeCheck (sampleTensor [0, 2 ^ 61] .Int64).GetShape
      (sampleTensor [0] .Int64).GetShape = .ok () ∧
    TensorHash.ConstructChecks sampleEnv (sampleTensor [0, 2 ^ 61] .Int64)
        (sampleTensor [0] .Int64)
      = .ok { key_type_ := .Int64, value_type_ := .Int64, key_dim_ := 2 ^ 61, value_dim_ := 1,
              N := 0, key_size := 0, value_size := 8 } ∧
    (TensorHash.Construct sampleEnv Recorder (sampleTensor [0, 2 ^ 61] .Int64)
        (sampleTensor [0] .Int64) false []).1.isOk = true := by
  refine ⟨by decide, by decide, by decide, by decide, by decide⟩

/-- C5, amended: for arrays that pass the device, contiguity and shape checks of
the constructor, keys of shape `[N, key_dim]`, and a product `key_dim` times
byte size below `2^64`: the key byte size computed is that product, the
constructor raises `KeyTooLarge` (its only possible validation error then) if
and only if the product is greater than `MAX_KEY_BYTESIZE`, and a product of at
most `MAX_KEY_BYTESIZE`, the maximum itself included, passes all checks. -/
theorem key_size_check (env : Env) (ops : BackendOps β ι) (coords values : Tensor)
    (insert : Bool) (trace : List Call) (N key_dim : Nat)
    (hd : ¬ ConstructDeviceFails coords values) (hc : ¬ ContiguityFails coords values)
    (hs : TensorHash.ShapeCheck coords.GetShape values.GetShape = .ok ())
    (hshape : coords.GetShape = [N, key_dim])
    (hno : key_dim * env.ByteSize coords.GetDtype < SIZE_MOD) :
    ((TensorHash.Construct env ops coords values insert trace).1
        = .raised (.LogError (.UnsupportedKeySize env.MAX_KEY_BYTESIZE
            (key_dim * env.ByteSize coords.GetDtype))) ↔
      key_dim * env.ByteSize coords.GetDtype > env.MAX_KEY_BYTESIZE) ∧
    ((∃ m, (TensorHash.Construct env ops coords values insert trace).1
        = .raised (.LogError m)) ↔
      key_dim * env.ByteSize coords.GetDtype > env.MAX_KEY_BYTESIZE) ∧
    (Message.UnsupportedKeySize env.MAX_KEY_BYTESIZE
        (key_dim * env.ByteSize coords.GetDtype)).kind = .KeyTooLarge ∧
    (key_dim * env.ByteSize coords.GetDtype ≤ env.MAX_KEY_BYTESIZE →
      ∃ info, TensorHash.ConstructChecks env coords values = .ok info ∧
        info.key_dim_ = key_dim ∧
        info.key_size = key_dim * env.ByteSize coords.GetDtype) := by
  have hks : keySize env coords.GetDtype key_dim = key_dim * env.ByteSize coords.GetDtype := by
    unfold keySize
    rw [Nat.mul_comm, Nat.mod_eq_of_lt hno]
  have hchk := ConstructChecks_of_shape env coords values N key_dim hd hc hs hshape
  rw [hks] at hchk
  by_cases hgt : key_dim * env.ByteSize coords.GetDtype > env.MAX_KEY_BYTESIZE
  · rw [if_pos hgt] at hchk
    have hcon := Construct_of_checks_raised env ops coords values insert trace _ hchk
    refine ⟨?_, ?_, rfl, ?_⟩
    · rw [hcon]; simp [hgt]
    · rw [hcon]; simp [hgt]
    · intro hle; omega
  · rw [if_neg hgt] at hchk
    refine ⟨?_, ?_, rfl, ?_⟩
    · constructor
      · intro h
        have := (Construct_LogError env ops coords values insert trace _ h).1
        rw [hchk] at this
        simp at this
      · intro h; exact absurd h hgt
    · constructor
      · rintro ⟨m, h⟩
        have := (Construct_LogError env ops coords values insert trace _ h).1
        rw [hchk] at this
        simp at this
      · intro h; exact absurd h hgt
    · intro _
      exact ⟨_, hchk, rfl, rfl⟩

/-- C5, amended, at a concrete input: keys of 4 elements of 8 bytes are exactly
32 bytes wide, the maximum of the sample build, and pass. -/
theorem key_size_check_witness :
    ∃ info, TensorHash.ConstructChecks sampleEnv (sampleTensor [2, 4] .Int64)
        (sampleTensor [2] .Int64) = .ok info ∧
      info.key_dim_ = 4 ∧
      info.key_size = 4 * sampleEnv.ByteSize (sampleTensor [2, 4] .Int64).GetDtype :=
  (key_size_check sampleEnv Recorder (sampleTensor [2, 4] .Int64) (sampleTensor [2] .Int64)
    false [] 2 4 (by decide) (by decide) (by decide) rfl (by decide)).2.2.2 (by decide)

end Shapes

/-! ## Devices -/

section Devices

variable {β ι : Type}

/-- C6, as stated, fails. With the backend on accelerator 0, `Insert` and `Assign`
accept keys and values that live on accelerator 1: only the kind of a device is
compared, never its number. And with the backend and the keys on the host they
accept values that live on an accelerator: the device of `values` is not looked
at. -/
theorem insert_assign_accept_arrays_on_other_devices :
    (cudaTensor 1 [2, 3] .Int64).GetDevice
      ≠ Recorder.device_ ({ device_type_ := .CUDA, device_id_ := 0 }, []) ∧
    (TensorHash.Insert sampleEnv Recorder
        { sampleHash with hashmap_ := ({ device_type_ := .CUDA, device_id_ := 0 }, []) }
        (cudaTensor 1 [2, 3] .Int64) (cudaTensor 1 [2] .Int64) []).1.isOk = true ∧
    (TensorHash.Assign sampleEnv Recorder
        { sampleHash with hashmap_ := ({ device_type_ := .CUDA, device_id_ := 0 }, []) }
        (cudaTensor 1 [2, 3] .Int64) (cudaTensor 1 [2] .Int64) []).1.isOk = true ∧
    (cudaTensor 0 [2] .Int64).GetDevice ≠ Recorder.device_ sampleHash.hashmap_ ∧
    (TensorHash.Insert sampleEnv Recorder sampleHash (sampleTensor [2, 3] .Int64)
        (cudaTensor 0 [2] .Int64) []).1.isOk = true ∧
    (TensorHash.Assign sampleEnv Recorder sampleHash (sampleTensor [2, 3] .Int64)
        (cudaTensor 0 [2] .Int64) []).1.isOk = true := by
  refine ⟨by decide, by decide, by decide, by decide, by decide, by decide⟩

/-- C6, amended: when the device kind of the keys differs from the device kind of
the backend, `Insert` and `Assign` raise `DeviceMismatch` (message "Input tensors
and hashmap device mismatch") before any other check and before any call; and
when the keys and the values both have the device kind of the backend, whatever
their device numbers, that error is not raised. Nothing is said about values of
another device kind than the backend. -/
theorem keys_device_kind_is_checked (env : Env) (ops : BackendOps β ι)
    (self : TensorHash β) (coords values : Tensor) (trace : List Call) :
    (coords.GetDevice.GetType ≠ (ops.device_ self.hashmap_).GetType →
      TensorHash.Insert env ops self coords values trace
        = (.raised (.LogError .HashmapDeviceMismatch), self, trace) ∧
      TensorHash.Assign env ops self coords values trace
        = (.raised (.LogError .HashmapDeviceMismatch), self, trace)) ∧
    Message.HashmapDeviceMismatch.kind = .DeviceMismatch ∧
    (coords.GetDevice.GetType = (ops.device_ self.hashmap_).GetType →
      values.GetDevice.GetType = (ops.device_ self.hashmap_).GetType →
      (TensorHash.Insert env ops self coords values trace).1
        ≠ .raised (.LogError .HashmapDeviceMismatch) ∧
      (TensorHash.Assign env ops self coords values trace).1
        ≠ .raised (.LogError .HashmapDeviceMismatch)) := by
  have hI : coords.GetDevice.GetType ≠ (ops.device_ self.hashmap_).GetType →
      TensorHash.InsertChecks ops self coords values
        = .raised (.LogError .HashmapDeviceMismatch) := by
    intro h
    rw [InsertChecks_eq, if_pos h]
  have hI2 : TensorHash.InsertChecks ops self coords values
        = .raised (.LogError .HashmapDeviceMismatch) →
      coords.GetDevice.GetType ≠ (ops.device_ self.hashmap_).GetType := by
    intro h
    by_contra hn
    rw [InsertChecks_eq, if_neg (not_not.mpr hn)] at h
    repeat (split at h <;> try simp at h)
  refine ⟨?_, rfl, ?_⟩
  · intro h
    exact ⟨Insert_of_checks_raised env ops self coords values trace _ (hI h),
      Assign_of_checks_raised env ops self coords values trace _
        (by rw [AssignChecks_eq_InsertChecks]; exact hI h)⟩
  · intro hk _
    refine ⟨?_, ?_⟩
    · intro h
      exact hI2 (Insert_LogError env ops self coords values trace _ h).1 hk
    · intro h
      have hc := (Assign_LogError env ops self coords values trace _ h).1
      rw [AssignChecks_eq_InsertChecks] at hc
      exact hI2 hc hk

/-- C6, amended, at a concrete input: keys on an accelerator, backend on the
host. -/
theorem keys_device_kind_is_checked_witness :
    TensorHash.Insert sampleEnv Recorder sampleHash (cudaTensor 0 [2, 3] .Int64)
        (sampleTensor [2] .Int64) []
      = (.raised (.LogError .HashmapDeviceMismatch), sampleHash, []) ∧
    TensorHash.Assign sampleEnv Recorder sampleHash (cudaTensor 0 [2, 3] .Int64)
        (sampleTensor [2] .Int64) []
      = (.raised (.LogError .HashmapDeviceMismatch), sampleHash, []) :=
  (keys_device_kind_is_checked sampleEnv Recorder sampleHash (cudaTensor 0 [2, 3] .Int64)
    (sampleTensor [2] .Int64) []).1 (by decide)

/-- C7, as stated, fails. Keys on accelerator 0 and values on accelerator 1 have
different device identifiers and the constructor accepts them. -/
theorem construct_accepts_two_devices_of_one_kind :
    (cudaTensor 0 [2, 3] .Int64).GetDevice ≠ (cudaTensor 1 [2] .Int64).GetDevice ∧
    (TensorHash.Construct sampleEnv Recorder (cudaTensor 0 [2, 3] .Int64)
        (cudaTensor 1 [2] .Int64) true []).1.isOk = true := by
  refine ⟨by decide, by decide⟩

/-- C7, amended: the constructor raises `DeviceMismatch` (message "Input tensors
device mismatch") if and only if the device kinds of the two arrays differ,
whatever their device numbers, and then before any other check and before the
hashmap is created. -/
theorem construct_checks_device_kinds (env : Env) (ops : BackendOps β ι)
    (coords values : Tensor) (insert : Bool) (trace : List Call) :
    ((TensorHash.Construct env ops coords values insert trace).1
        = .raised (.LogError .InputDeviceMismatch) ↔
      coords.GetDevice.GetType ≠ values.GetDevice.GetType) ∧
    (coords.GetDevice.GetType ≠ values.GetDevice.GetType →
      TensorHash.Construct env ops coords values insert trace
        = (.raised (.LogError .InputDeviceMismatch), trace)) ∧
    Message.InputDeviceMismatch.kind = .DeviceMismatch := by
  have hC : coords.GetDevice.GetType ≠ values.GetDevice.GetType →
      TensorHash.ConstructChecks env coords values
        = .raised (.LogError .InputDeviceMismatch) := by
    intro h
    rw [ConstructChecks_eq, if_pos h]
  refine ⟨⟨?_, ?_⟩, ?_, rfl⟩
  · intro h
    have := (Construct_LogError env ops coords values insert trace _ h).1
    by_contra hn
    rw [ConstructChecks_eq, if_neg (not_not.mpr hn)] at this
    repeat (split at this <;> try simp at this)
  · intro h
    rw [Construct_of_checks_raised env ops coords values insert trace _ (hC h)]
  · intro h
    exact Construct_of_checks_raised env ops coords values insert trace _ (hC h)

/-- C7, amended, at a concrete input: keys on the host, values on an
accelerator. -/
theorem construct_checks_device_kinds_witness :
    TensorHash.Construct sampleEnv Recorder (sampleTensor [2, 3] .Int64)
        (cudaTensor 0 [2] .Int64) true []
      = (.raised (.LogError .InputDeviceMismatch), []) :=
  (construct_checks_device_kinds sampleEnv Recorder (sampleTensor [2, 3] .Int64)
    (cudaTensor 0 [2] .Int64) true []).2.1 (by decide)

end Devices

/-! ## Empty inputs, masks and the members of the index -/

section Members

variable {β ι : Type}

/-- C9: what the code does. On every normal return over keys of shape
`[N, key_dim_]` the mask is a fresh tensor of shape `[N]` on the device of the
keys; its element type is `Dtype::Bool` for `Insert` and `Query` and
`Dtype::UInt8` for `Assign`. -/
theorem mask_shapes_and_element_types (env : Env) (ops : BackendOps β ι)
    (self : TensorHash β) (coords values : Tensor) (trace : List Call) :
    (∀ r, (TensorHash.Insert env ops self coords values trace).1 = .ok r →
      ∃ N, coords.GetShape = [N, self.key_dim_] ∧
        r.2.GetShape = [N] ∧ r.2.GetDtype = .Bool) ∧
    (∀ r, (TensorHash.Query env ops self coords trace).1 = .ok r →
      ∃ N, coords.GetShape = [N, self.key_dim_] ∧
        r.2.GetShape = [N] ∧ r.2.GetDtype = .Bool) ∧
    (∀ r, (TensorHash.Assign env ops self coords values trace).1 = .ok r →
      ∃ N, coords.GetShape = [N, self.key_dim_] ∧
        r.GetShape = [N] ∧ r.GetDtype = .UInt8 ∧ r.GetDtype ≠ .Bool) := by
  refine ⟨?_, ?_, ?_⟩
  · intro r h
    obtain ⟨N, hN, _, _, _, hs, ht, _⟩ := Insert_ok_mask env ops self coords values trace r h
    exact ⟨N, ((InsertChecks_ok_iff ops self coords values N).1 hN).2.2.2.1, hs, ht⟩
  · intro r h
    obtain ⟨N, hN, _, _, _, hs, ht, _⟩ := Query_ok_mask env ops self coords trace r h
    exact ⟨N, ((QueryChecks_ok_iff ops self coords N).1 hN).2.2.2, hs, ht⟩
  · intro r h
    obtain ⟨N, hN, hs, ht, _⟩ := Assign_ok_mask env ops self coords values trace r h
    rw [AssignChecks_eq_InsertChecks] at hN
    refine ⟨N, ((InsertChecks_ok_iff ops self coords values N).1 hN).2.2.2.1, hs, ht, ?_⟩
    rw [ht]; decide

/-- C9 at a concrete input: `Assign` on two key rows of the sample index returns
a mask of shape `[2]` whose element type is `UInt8`, not `Bool`. -/
theorem mask_shapes_and_element_types_witness :
    (TensorHash.Assign sampleEnv Recorder sampleHash (sampleTensor [2, 3] .Int64)
        (sampleTensor [2] .Int64) []).1
      = .ok { Tensor.New sampleEnv [2] .UInt8 cpu0 with blob := [1, 1] } ∧
    ∃ N, (sampleTensor [2, 3] .Int64).GetShape = [N, sampleHash.key_dim_] ∧
      Tensor.GetShape { Tensor.New sampleEnv [2] .UInt8 cpu0 with blob := [1, 1] } = [N] ∧
      Tensor.GetDtype { Tensor.New sampleEnv [2] .UInt8 cpu0 with blob := [1, 1] } = .UInt8 ∧
      Tensor.GetDtype { Tensor.New sampleEnv [2] .UInt8 cpu0 with blob := [1, 1] } ≠ .Bool :=
  ⟨by decide,
   (mask_shapes_and_element_types sampleEnv Recorder sampleHash (sampleTensor [2, 3] .Int64)
      (sampleTensor [2] .Int64) []).2.2
      { Tensor.New sampleEnv [2] .UInt8 cpu0 with blob := [1, 1] } (by decide)⟩

/-- C10: the constructor stores `key_dim_` = second extent of the keys,
`value_dim_` = 1 for values of rank 1 and their second extent otherwise, and
the element types of the two arrays; and after any call of `Insert`, `Query` or
`Assign`, returned or raised, on any state of the index these four members are
what they were before the call. -/
theorem members_fixed_after_construction (env : Env) (ops : BackendOps β ι) :
    (∀ (coords values : Tensor) (insert : Bool) (trace : List Call) (h : TensorHash β),
      (TensorHash.Construct env ops coords values insert trace).1 = .ok h →
        coords.GetShape[1]? = some h.key_dim_ ∧
        valueDim values.GetShape = some h.value_dim_ ∧
        h.key_type_ = coords.GetDtype ∧ h.value_type_ = values.GetDtype) ∧
    (∀ (self : TensorHash β) (coords values : Tensor) (trace : List Call),
      (TensorHash.Insert env ops self coords values trace).2.1.sameMembers self ∧
      (TensorHash.Query env ops self coords trace).2.1.sameMembers self ∧
      (TensorHash.Assign env ops self coords values trace).2.1.sameMembers self) := by
  refine ⟨?_, ?_⟩
  · intro coords values insert trace h hC
    obtain ⟨info, hchk, h1, h2, h3, h4⟩ := Construct_ok_info env ops coords values insert trace h hC
    obtain ⟨hs, _, hv, hk, hvt, _⟩ := ConstructChecks_ok_info env coords values info hchk
    refine ⟨?_, ?_, ?_, ?_⟩
    · rw [hs, h3]; simp
    · rw [hv, h4]
    · rw [h1, hk]
    · rw [h2, hvt]
  · intro self coords values trace
    exact ⟨Insert_sameMembers env ops self coords values trace,
      Query_sameMembers env ops self coords trace,
      Assign_sameMembers env ops self coords values trace⟩

/-- C10 at a concrete input: an index constructed from keys of shape `[2, 3]` and
values of shape `[2]` has `key_dim_ = 3` and `value_dim_ = 1`. -/
theorem members_fixed_after_construction_witness :
    (sampleTensor [2, 3] .Int64).GetShape[1]? = some 3 ∧
    valueDim (sampleTensor [2] .Int32).GetShape = some 1 ∧
    Dtype.Int64 = (sampleTensor [2, 3] .Int64).GetDtype ∧
    Dtype.Int32 = (sampleTensor [2] .Int32).GetDtype :=
  (members_fixed_after_construction sampleEnv Recorder).1
    (sampleTensor [2, 3] .Int64) (sampleTensor [2] .Int32) true []
    { hashmap_ := (cpu0, [Call.CreateDefaultHashmap 1 24 4 cpu0, Call.Insert 2]),
      key_type_ := .Int64, value_type_ := .Int32, key_dim_ := 3, value_dim_ := 1 }
    (by decide)

end Members

/-! ## `TensorKey` -/

namespace core

/-- C17: for every slice key `Slice(start, stop, step)` and every `dim_size`,
`UpdateWithDimSize(dim_size)` returns a slice key whose start is the given start
or 0, whose stop is the given stop or `dim_size`, whose step is the given step
or 1, given values of any sign unchanged; `GetStart`, `GetStop` and `GetStep`
succeed on it. `Slice(None, 4, None)` with `dim_size` 5 becomes `Slice(0, 4, 1)`
and `Slice(1, None, None)` becomes `Slice(1, 5, 1)`. -/
theorem update_with_dim_size_fills_defaults (start stop step : Option Int) (dim_size : Int) :
    (TensorKey.Slice start stop step).UpdateWithDimSize dim_size
      = .ok (TensorKey.Slice (some (start.getD 0)) (some (stop.getD dim_size))
          (some (step.getD 1))) ∧
    (TensorKey.Slice (some (start.getD 0)) (some (stop.getD dim_size))
        (some (step.getD 1))).GetStart = .ok (start.getD 0) ∧
    (TensorKey.Slice (some (start.getD 0)) (some (stop.getD dim_size))
        (some (step.getD 1))).GetStop = .ok (stop.getD dim_size) ∧
    (TensorKey.Slice (some (start.getD 0)) (some (stop.getD dim_size))
        (some (step.getD 1))).GetStep = .ok (step.getD 1) ∧
    (∀ v : Int, start = some v → start.getD 0 = v) ∧
    (∀ v : Int, stop = some v → stop.getD dim_size = v) ∧
    (∀ v : Int, step = some v → step.getD 1 = v) ∧
    (TensorKey.Slice none (some 4) none).UpdateWithDimSize 5
      = .ok (TensorKey.Slice (some 0) (some 4) (some 1)) ∧
    (TensorKey.Slice (some 1) none none).UpdateWithDimSize 5
      = .ok (TensorKey.Slice (some 1) (some 5) (some 1)) ∧
    (TensorKey.Slice (some (-3)) (some (-1)) (some (-2))).UpdateWithDimSize 5
      = .ok (TensorKey.Slice (some (-3)) (some (-1)) (some (-2))) := by
  refine ⟨?_, rfl, rfl, rfl, ?_, ?_, ?_, rfl, rfl, rfl⟩
  · cases start <;> cases stop <;> cases step <;> rfl
  · intro v h; subst h; rfl
  · intro v h; subst h; rfl
  · intro v h; subst h; rfl

/-- C18: each accessor succeeds only on a key of its own mode. On `Index(i)`:
`GetMode` is `Index`, `GetIndex` returns `i`, and `GetStart`, `GetStop`,
`GetStep`, `UpdateWithDimSize`, `GetIndexTensor` raise. On a slice key: `GetMode`
is `Slice` and `GetIndex`, `GetIndexTensor` raise. On an index-tensor key:
`GetMode` is `IndexTensor`, `GetIndexTensor` returns the tensor and `GetIndex`,
`GetStart`, `GetStop`, `GetStep`, `UpdateWithDimSize` raise. Every key is of one
of the three forms. -/
theorem accessors_follow_the_mode (i dim_size : Int) (start stop step : Option Int)
    (t : Tensor) :
    ((TensorKey.Index i).GetMode = .ok .Index ∧
      (TensorKey.Index i).GetIndex = .ok i ∧
      (TensorKey.Index i).GetStart = .raised .GetStartNotSliceImpl ∧
      (TensorKey.Index i).GetStop = .raised .GetStopNotSliceImpl ∧
      (TensorKey.Index i).GetStep = .raised .GetStepNotSliceImpl ∧
      (TensorKey.Index i).UpdateWithDimSize dim_size
        = .raised .UpdateWithDimSizeNotSliceImpl ∧
      (TensorKey.Index i).GetIndexTensor = .raised .GetIndexTensorNotIndexTensorImpl) ∧
    ((TensorKey.Slice start stop step).GetMode = .ok .Slice ∧
      (TensorKey.Slice start stop step).GetIndex = .raised .GetIndexNotIndexImpl ∧
      (TensorKey.Slice start stop step).GetIndexTensor
        = .raised .GetIndexTensorNotIndexTensorImpl) ∧
    ((TensorKey.IndexTensor t).GetMode = .ok .IndexTensor ∧
      (TensorKey.IndexTensor t).GetIndexTensor = .ok t ∧
      (TensorKey.IndexTensor t).GetIndex = .raised .GetIndexNotIndexImpl ∧
      (TensorKey.IndexTensor t).GetStart = .raised .GetStartNotSliceImpl ∧
      (TensorKey.IndexTensor t).GetStop = .raised .GetStopNotSliceImpl ∧
      (TensorKey.IndexTensor t).GetStep = .raised .GetStepNotSliceImpl ∧
      (TensorKey.IndexTensor t).UpdateWithDimSize dim_size
        = .raised .UpdateWithDimSizeNotSliceImpl) ∧
    (∀ k : TensorKey, (∃ j, k = TensorKey.Index j) ∨
      (∃ a b c, k = TensorKey.Slice a b c) ∨ (∃ u, k = TensorKey.IndexTensor u)) := by
  refine ⟨⟨rfl, rfl, rfl, rfl, rfl, rfl, rfl⟩, ⟨rfl, rfl, rfl⟩,
    ⟨rfl, rfl, rfl, rfl, rfl, rfl, rfl⟩, ?_⟩
  rintro ⟨impl⟩
  cases impl with
  | IndexImpl j => exact Or.inl ⟨j, rfl⟩
  | SliceImpl s => exact Or.inr (Or.inl ⟨s.start_, s.stop_, s.step_, rfl⟩)
  | IndexTensorImpl u => exact Or.inr (Or.inr ⟨u, rfl⟩)

/-- C19: on a slice key `Slice(start, stop, step)`, `GetStart` returns the value
of `start` when it is set and raises "start is None" if and only if `start` is
`None`, whatever `stop` and `step` are; likewise `GetStop` for `stop` and
`GetStep` for `step`. -/
theorem slice_getters_depend_on_their_own_field (start stop step : Option Int) :
    (∀ v, start = some v → (TensorKey.Slice start stop step).GetStart = .ok v) ∧
    ((TensorKey.Slice start stop step).GetStart = .raised .StartIsNone ↔ start = none) ∧
    ((∃ m, (TensorKey.Slice start stop step).GetStart = .raised m) ↔ start = none) ∧
    (∀ v, stop = some v → (TensorKey.Slice start stop step).GetStop = .ok v) ∧
    ((TensorKey.Slice start stop step).GetStop = .raised .StopIsNone ↔ stop = none) ∧
    ((∃ m, (TensorKey.Slice start stop step).GetStop = .raised m) ↔ stop = none) ∧
    (∀ v, step = some v → (TensorKey.Slice start stop step).GetStep = .ok v) ∧
    ((TensorKey.Slice start stop step).GetStep = .raised .StepIsNone ↔ step = none) ∧
    ((∃ m, (TensorKey.Slice start stop step).GetStep = .raised m) ↔ step = none) := by
  refine ⟨?_, ?_, ?_, ?_, ?_, ?_, ?_, ?_, ?_⟩
  · intro v h; subst h; rfl
  · cases start <;>
      simp [TensorKey.Slice, TensorKey.GetStart, SliceImpl.GetStart]
  · cases start <;>
      simp [TensorKey.Slice, TensorKey.GetStart, SliceImpl.GetStart]
  · intro v h; subst h; rfl
  · cases stop <;>
      simp [TensorKey.Slice, TensorKey.GetStop, SliceImpl.GetStop]
  · cases stop <;>
      simp [TensorKey.Slice, TensorKey.GetStop, SliceImpl.GetStop]
  · intro v h; subst h; rfl
  · cases step <;>
      simp [TensorKey.Slice, TensorKey.GetStep, SliceImpl.GetStep]
  · cases step <;>
      simp [TensorKey.Slice, TensorKey.GetStep, SliceImpl.GetStep]

end core

/-! ## Capacity and scratch buffers -/

section Resources

variable {β ι : Type}

/-- C20: what the code does. Whenever the checks of the constructor pass, for
keys of `N` rows, the one hashmap it creates is asked for with
`CreateDefaultHashmap(N / 2, key_size, value_size, device)`: the capacity
passed is half the input size, which for `N > 0` is not `2 * N`. -/
theorem construct_reserves_half_the_input_size (env : Env) (ops : BackendOps β ι)
    (coords values : Tensor) (insert : Bool) (trace : List Call) (info : KeyValueInfo)
    (hchk : TensorHash.ConstructChecks env coords values = .ok info) :
    coords.GetShape = [info.N, info.key_dim_] ∧
    (∃ rest, (TensorHash.Construct env ops coords values insert trace).2
      = trace ++ Call.CreateDefaultHashmap (info.N / 2) info.key_size info.value_size
          coords.GetDevice :: rest ∧
      ∀ c ∈ rest, ∀ a b d e, c ≠ Call.CreateDefaultHashmap a b d e) ∧
    (∀ h, (TensorHash.Construct env ops coords values insert trace).1 = .ok h →
      ∃ hashmap, ops.CreateDefaultHashmap (info.N / 2) info.key_size info.value_size
        coords.GetDevice = .ok hashmap) ∧
    (0 < info.N → info.N / 2 < 2 * info.N) := by
  refine ⟨(ConstructChecks_ok_info env coords values info hchk).1, ?_, ?_, ?_⟩
  · unfold TensorHash.Construct
    simp only [hchk]
    cases hC : ops.CreateDefaultHashmap (info.N / 2) info.key_size info.value_size
        coords.GetDevice with
    | raised k => exact ⟨[], by simp⟩
    | undefined => exact ⟨[], by simp⟩
    | ok hm =>
      cases insert with
      | false => exact ⟨[], by simp⟩
      | true =>
        simp only [if_true]
        rcases hI : ops.Insert hm coords.blob values.blob info.N with ⟨r, hm1⟩
        cases r with
        | raised k =>
          exact ⟨[Call.Malloc ((env.sizeof_iterator_t * info.N) % SIZE_MOD) coords.GetDevice,
            Call.Malloc ((sizeof_bool * info.N) % SIZE_MOD) coords.GetDevice,
            Call.Insert info.N], by simp, by simp⟩
        | undefined =>
          exact ⟨[Call.Malloc ((env.sizeof_iterator_t * info.N) % SIZE_MOD) coords.GetDevice,
            Call.Malloc ((sizeof_bool * info.N) % SIZE_MOD) coords.GetDevice,
            Call.Insert info.N], by simp, by simp⟩
        | ok q =>
          exact ⟨[Call.Malloc ((env.sizeof_iterator_t * info.N) % SIZE_MOD) coords.GetDevice,
            Call.Malloc ((sizeof_bool * info.N) % SIZE_MOD) coords.GetDevice,
            Call.Insert info.N, Call.Free coords.GetDevice, Call.Free coords.GetDevice],
            by simp, by simp⟩
  · intro h hC
    unfold TensorHash.Construct at hC
    simp only [hchk] at hC
    cases hH : ops.CreateDefaultHashmap (info.N / 2) info.key_size info.value_size
        coords.GetDevice with
    | raised k => rw [hH] at hC; simp at hC
    | undefined => rw [hH] at hC; simp at hC
    | ok hm => exact ⟨hm, rfl⟩
  · intro h; omega

/-- C20 at a concrete input: for 4 key rows the constructor asks for a capacity
of 2, not 8. -/
theorem construct_reserves_half_the_input_size_witness :
    (TensorHash.Construct sampleEnv Recorder (sampleTensor [4, 3] .Int64)
        (sampleTensor [4] .Int64) false []).2
      = [Call.CreateDefaultHashmap 2 24 8 cpu0] ∧
    ∃ rest, (TensorHash.Construct sampleEnv Recorder (sampleTensor [4, 3] .Int64)
        (sampleTensor [4] .Int64) true []).2
      = [] ++ Call.CreateDefaultHashmap (4 / 2) 24 8 (sampleTensor [4, 3] .Int64).GetDevice
          :: rest ∧
      ∀ c ∈ rest, ∀ a b d e, c ≠ Call.CreateDefaultHashmap a b d e :=
  ⟨by decide,
   (construct_reserves_half_the_input_size sampleEnv Recorder (sampleTensor [4, 3] .Int64)
      (sampleTensor [4] .Int64) true []
      { key_type_ := .Int64, value_type_ := .Int64, key_dim_ := 3, value_dim_ := 1, N := 4,
        key_size := 24, value_size := 8 } (by decide)).2.1⟩

/-- C16: what the code does. `Insert`, `Query` and `Assign` allocate one scratch
buffer after their checks and free it as their last statement. A call that
returns has made one `Malloc` and one `Free`; a call that raises a validation
error has made neither; a call in which a backend call raises has made the
`Malloc` and no `Free`. -/
theorem scratch_buffer_calls_per_exit_path (env : Env) (ops : BackendOps β ι)
    (self : TensorHash β) (coords values : Tensor) (trace : List Call) :
    ((∀ m, (TensorHash.Insert env ops self coords values trace).1 = .raised (.LogError m) →
        mallocCount (TensorHash.Insert env ops self coords values trace).2.2
          = mallocCount trace ∧
        freeCount (TensorHash.Insert env ops self coords values trace).2.2
          = freeCount trace) ∧
     (∀ r, (TensorHash.Insert env ops self coords values trace).1 = .ok r →
        mallocCount (TensorHash.Insert env ops self coords values trace).2.2
          = mallocCount trace + 1 ∧
        freeCount (TensorHash.Insert env ops self coords values trace).2.2
          = freeCount trace + 1) ∧
     (∀ k, (TensorHash.Insert env ops self coords values trace).1 = .raised (.Backend k) →
        mallocCount (TensorHash.Insert env ops self coords values trace).2.2
          = mallocCount trace + 1 ∧
        freeCount (TensorHash.Insert env ops self coords values trace).2.2
          = freeCount trace)) ∧
    ((∀ m, (TensorHash.Query env ops self coords trace).1 = .raised (.LogError m) →
        mallocCount (TensorHash.Query env ops self coords trace).2.2 = mallocCount trace ∧
        freeCount (TensorHash.Query env ops self coords trace).2.2 = freeCount trace) ∧
     (∀ r, (TensorHash.Query env ops self coords trace).1 = .ok r →
        mallocCount (TensorHash.Query env ops self coords trace).2.2
          = mallocCount trace + 1 ∧
        freeCount (TensorHash.Query env ops self coords trace).2.2 = freeCount trace + 1) ∧
     (∀ k, (TensorHash.Query env ops self coords trace).1 = .raised (.Backend k) →
        mallocCount (TensorHash.Query env ops self coords trace).2.2
          = mallocCount trace + 1 ∧
        freeCount (TensorHash.Query env ops self coords trace).2.2 = freeCount trace)) ∧
    ((∀ m, (TensorHash.Assign env ops self coords values trace).1 = .raised (.LogError m) →
        mallocCount (TensorHash.Assign env ops self coords values trace).2.2
          = mallocCount trace ∧
        freeCount (TensorHash.Assign env ops self coords values trace).2.2
          = freeCount trace) ∧
     (∀ r, (TensorHash.Assign env ops self coords values trace).1 = .ok r →
        mallocCount (TensorHash.Assign env ops self coords values trace).2.2
          = mallocCount trace + 1 ∧
        freeCount (TensorHash.Assign env ops self coords values trace).2.2
          = freeCount trace + 1) ∧
     (∀ k, (TensorHash.Assign env ops self coords values trace).1 = .raised (.Backend k) →
        mallocCount (TensorHash.Assign env ops self coords values trace).2.2
          = mallocCount trace + 1 ∧
        freeCount (TensorHash.Assign env ops self coords values trace).2.2
          = freeCount trace)) := by
  refine ⟨⟨?_, Insert_counts_ok env ops self coords values trace,
      Insert_counts_backend env ops self coords values trace⟩,
    ⟨?_, Query_counts_ok env ops self coords trace,
      Query_counts_backend env ops self coords trace⟩,
    ⟨?_, Assign_counts_ok env ops self coords values trace,
      Assign_counts_backend env ops self coords values trace⟩⟩
  · intro m h
    rw [(Insert_LogError env ops self coords values trace m h).2]
    exact ⟨rfl, rfl⟩
  · intro m h
    rw [(Query_LogError env ops self coords trace m h).2]
    exact ⟨rfl, rfl⟩
  · intro m h
    rw [(Assign_LogError env ops self coords values trace m h).2]
    exact ⟨rfl, rfl⟩

end Resources

/-! ## `Unique` -/

section UniqueAlgorithm

variable {β ι : Type}

end UniqueAlgorithm

/-! ## The scenarios of the specification on its backend -/

section Scenarios

/-- C12: what the code does on two distinct key rows. The constructor reserves
`2 / 2 = 1` entry; called with `insert = true` it raises `CapacityExceeded`, and
called with `insert = false` it returns the empty index of capacity 1 on which
`Insert` of the two rows raises `CapacityExceeded`: there is no round trip. On
the same index with 4 entries reserved, `Insert` then `Query` give the mask
`[true, true]` and the inserted values. -/
theorem round_trip_exceeds_reserved_capacity :
    TensorHash.Construct sampleEnv (SpecBackend sampleEnv) twoKeys twoValues true []
      = (.raised (.Backend .CapacityExceeded),
         [Call.CreateDefaultHashmap 1 24 8 cpu0, Call.Malloc 16 cpu0, Call.Malloc 2 cpu0,
          Call.Insert 2]) ∧
    TensorHash.Construct sampleEnv (SpecBackend sampleEnv) twoKeys twoValues false []
      = (.ok (emptyIndex 1 3), [Call.CreateDefaultHashmap 1 24 8 cpu0]) ∧
    (TensorHash.Insert sampleEnv (SpecBackend sampleEnv) (emptyIndex 1 3) twoKeys twoValues
        []).1 = .raised (.Backend .CapacityExceeded) ∧
    (TensorHash.Insert sampleEnv (SpecBackend sampleEnv) (emptyIndex 4 3) twoKeys twoValues
        []).1.isOk = true ∧
    (TensorHash.Query sampleEnv (SpecBackend sampleEnv)
        (TensorHash.Insert sampleEnv (SpecBackend sampleEnv) (emptyIndex 4 3) twoKeys
          twoValues []).2.1 twoKeys []).1
      = .ok ({ Tensor.New sampleEnv [2, 1] .Int64 cpu0 with blob := twoValues.blob },
             { Tensor.New sampleEnv [2] .Bool cpu0 with blob := [1, 1] }) := by
  refine ⟨by decide, by decide, by decide, by decide, by decide⟩

/-- C13: what the code does on the dedup scenario. For the 5 key rows `Unique`
reserves `5 / 2 = 2` entries and its `Insert` raises `CapacityExceeded` at the
third distinct row. On an index with 10 entries reserved the same `Insert`
returns the mask `[true, true, true, false, true]` and leaves 4 entries. -/
theorem dedup_scenario_exceeds_reserved_capacity :
    Unique sampleEnv (SpecBackend sampleEnv) dedupKeys []
      = (.raised (.Backend .CapacityExceeded),
         [Call.CreateDefaultHashmap 2 24 8 cpu0, Call.Malloc 40 cpu0, Call.Insert 5]) ∧
    (∃ keys, (TensorHash.Insert sampleEnv (SpecBackend sampleEnv) (emptyIndex 10 3) dedupKeys
        (Tensor.FromInt64 (List.range 5) [5] cpu0) []).1
      = .ok (keys, { Tensor.New sampleEnv [5] .Bool cpu0 with blob := [1, 1, 1, 0, 1] })) ∧
    (TensorHash.Insert sampleEnv (SpecBackend sampleEnv) (emptyIndex 10 3) dedupKeys
        (Tensor.FromInt64 (List.range 5) [5] cpu0) []).2.1.hashmap_.slots.length = 4 := by
  refine ⟨by decide, ⟨_, by rfl⟩, by decide⟩

/-- C14: what the code does on the assign-overwrite scenario. For the single key
row `[1, 2]` the constructor reserves `1 / 2 = 0` entries: with `insert = true`
it raises `CapacityExceeded`, and with `insert = false` it returns the empty
index of capacity 0 on which `Insert({[1,2]}, {10})` raises `CapacityExceeded`.
On the same index with 2 entries reserved, `Insert`, `Assign({[1,2]}, {20})` and
`Query({[1,2]})` return, the masks of `Assign` and `Query` are `[true]`, the
value queried is 20 and one entry is stored. -/
theorem assign_scenario_exceeds_reserved_capacity :
    (TensorHash.Construct sampleEnv (SpecBackend sampleEnv) scenarioKey (scenarioValue 10)
        true []).1 = .raised (.Backend .CapacityExceeded) ∧
    TensorHash.Construct sampleEnv (SpecBackend sampleEnv) scenarioKey (scenarioValue 10)
        false []
      = (.ok (emptyIndex 0 2), [Call.CreateDefaultHashmap 0 16 8 cpu0]) ∧
    (TensorHash.Insert sampleEnv (SpecBackend sampleEnv) (emptyIndex 0 2) scenarioKey
        (scenarioValue 10) []).1 = .raised (.Backend .CapacityExceeded) ∧
    (TensorHash.Insert sampleEnv (SpecBackend sampleEnv) (emptyIndex 2 2) scenarioKey
        (scenarioValue 10) []).1.isOk = true ∧
    (TensorHash.Assign sampleEnv (SpecBackend sampleEnv)
        (TensorHash.Insert sampleEnv (SpecBackend sampleEnv) (emptyIndex 2 2) scenarioKey
          (scenarioValue 10) []).2.1 scenarioKey (scenarioValue 20) []).1
      = .ok { Tensor.New sampleEnv [1] .UInt8 cpu0 with blob := [1] } ∧
    TensorHash.Query sampleEnv (SpecBackend sampleEnv)
        (TensorHash.Assign sampleEnv (SpecBackend sampleEnv)
          (TensorHash.Insert sampleEnv (SpecBackend sampleEnv) (emptyIndex 2 2) scenarioKey
            (scenarioValue 10) []).2.1 scenarioKey (scenarioValue 20) []).2.1 scenarioKey []
      = (.ok ({ Tensor.New sampleEnv [1, 1] .Int64 cpu0 with blob := (scenarioValue 20).blob },
              { Tensor.New sampleEnv [1] .Bool cpu0 with blob := [1] }),
         { emptyIndex 2 2 with hashmap_ :=
            { (emptyIndex 2 2).hashmap_ with
              slots := [(scenarioKey.blob, (scenarioValue 20).blob)] } },
         [Call.Malloc 8 cpu0, Call.Find 1, Call.UnpackIterators false true 1,
          Call.Free cpu0]) := by
  refine ⟨by decide, by decide, by decide, by decide, by decide, by decide⟩

end Scenarios

/-! ## Inserting twice -/

section Idempotence

/-- C15, as stated, fails. The backend has a fixed capacity: the index that the
constructor builds from two key rows without inserting them takes none of 5
pairwise distinct key rows, and neither does an index with 4 entries reserved;
the first `Insert` raises `CapacityExceeded`. And an index may hold the keys
already: the constructor called with `insert = true` on the rows
`k1, k2, k1, k2` stores `k1` and `k2`, so that the first `Insert` of the
distinct rows `k1, k2` has the mask `[false, false]` and the `Query` after the
second `Insert` returns the values given to the constructor and not those of
the first `Insert`. -/
theorem insert_twice_on_a_full_or_filled_index :
    (rowsOf (Tensor.FromInt64 (List.range 15) [5, 3] cpu0).blob 24 5).Nodup ∧
    (TensorHash.Construct sampleEnv (SpecBackend sampleEnv) twoKeys twoValues false []).1
      = .ok (emptyIndex 1 3) ∧
    (TensorHash.Insert sampleEnv (SpecBackend sampleEnv) (emptyIndex 1 3)
        (Tensor.FromInt64 (List.range 15) [5, 3] cpu0)
        (Tensor.FromInt64 (List.range 5) [5] cpu0) []).1
      = .raised (.Backend .CapacityExceeded) ∧
    (TensorHash.Insert sampleEnv (SpecBackend sampleEnv) (emptyIndex 4 3)
        (Tensor.FromInt64 (List.range 15) [5, 3] cpu0)
        (Tensor.FromInt64 (List.range 5) [5] cpu0) []).1
      = .raised (.Backend .CapacityExceeded) ∧
    (rowsOf twoKeys.blob 24 2).Nodup ∧
    (∃ index trace keys1 index1 trace1 keys2 mask2 index2 trace2 mask3 index3 trace3,
      TensorHash.Construct sampleEnv (SpecBackend sampleEnv)
          (Tensor.FromInt64 [1, 2, 3, 4, 5, 6, 1, 2, 3, 4, 5, 6] [4, 3] cpu0)
          (Tensor.FromInt64 [10, 20, 30, 40] [4] cpu0) true []
        = (.ok index, trace) ∧
      TensorHash.Insert sampleEnv (SpecBackend sampleEnv) index twoKeys
          (Tensor.FromInt64 [50, 60] [2] cpu0) trace
        = (.ok (keys1, { Tensor.New sampleEnv [2] .Bool cpu0 with blob := [0, 0] }),
           index1, trace1) ∧
      TensorHash.Insert sampleEnv (SpecBackend sampleEnv) index1 twoKeys
          (Tensor.FromInt64 [70, 80] [2] cpu0) trace1
        = (.ok (keys2, mask2), index2, trace2) ∧
      TensorHash.Query sampleEnv (SpecBackend sampleEnv) index2 twoKeys trace2
        = (.ok ({ Tensor.New sampleEnv [2, 1] .Int64 cpu0 with
                  blob := (Tensor.FromInt64 [10, 20] [2] cpu0).blob }, mask3),
           index3, trace3) ∧
      (Tensor.FromInt64 [10, 20] [2] cpu0).blob
        ≠ (Tensor.FromInt64 [50, 60] [2] cpu0).blob) := by
  refine ⟨by decide, by decide, by decide, by decide, by decide,
    _, _, _, _, _, _, _, _, _, _, _, _, by rfl, by rfl, by rfl, by rfl, by decide⟩

/-- C15, amended: on an index over the backend of the specification that stores
none of the `N` pairwise distinct key rows and has room for `N` more entries,
inserting the rows with a values array of `N` rows, inserting them again with
any values that pass validation, and querying them gives: a first `Insert` mask
that is all true, a second `Insert` mask that is all false, and a `Query` whose
mask is all true and whose values are those of the first insertion. -/
theorem insert_twice_then_query (env : Env) (self : TensorHash HashBackend)
    (coords values1 values2 : Tensor) (trace : List Call) (N : Nat)
    (h1 : TensorHash.InsertChecks (SpecBackend env) self coords values1 = .ok N)
    (h2 : TensorHash.InsertChecks (SpecBackend env) self coords values2 = .ok N)
    (hdist : (rowsOf coords.blob self.hashmap_.key_size N).Nodup)
    (hfresh : ∀ k ∈ rowsOf coords.blob self.hashmap_.key_size N,
      findSlot k self.hashmap_.slots = none)
    (hcap : self.hashmap_.slots.length + N ≤ self.hashmap_.capacity)
    (hlen : values1.blob.length = N * self.hashmap_.value_size) :
    ∃ keys1 mask1 index1 trace1 keys2 mask2 index2 trace2 vals mask3 index3 trace3,
      TensorHash.Insert env (SpecBackend env) self coords values1 trace
        = (.ok (keys1, mask1), index1, trace1) ∧
      mask1.GetShape = [N] ∧ mask1.blob = List.replicate N 1 ∧
      TensorHash.Insert env (SpecBackend env) index1 coords values2 trace1
        = (.ok (keys2, mask2), index2, trace2) ∧
      mask2.GetShape = [N] ∧ mask2.blob = List.replicate N 0 ∧
      TensorHash.Query env (SpecBackend env) index2 coords trace2
        = (.ok (vals, mask3), index3, trace3) ∧
      mask3.GetShape = [N] ∧ mask3.blob = List.replicate N 1 ∧
      vals.blob = values1.blob := by
  set ks := rowsOf coords.blob self.hashmap_.key_size N with hks
  set vs1 := rowsOf values1.blob self.hashmap_.value_size N with hvs1
  set vs2 := rowsOf values2.blob self.hashmap_.value_size N with hvs2
  have hk1 : (ks.zip vs1).map Prod.fst = ks :=
    List.map_fst_zip _ _ (by simp [hks, hvs1, length_rowsOf])
  have hv1 : (ks.zip vs1).map Prod.snd = vs1 :=
    List.map_snd_zip _ _ (by simp [hks, hvs1, length_rowsOf])
  have hl1 : (ks.zip vs1).length = N := by simp [hks, hvs1, length_rowsOf]
  have hk2 : (ks.zip vs2).map Prod.fst = ks :=
    List.map_fst_zip _ _ (by simp [hks, hvs2, length_rowsOf])
  have hl2 : (ks.zip vs2).length = N := by simp [hks, hvs2, length_rowsOf]
  have hf1 : ∀ kv ∈ ks.zip vs1, findSlot kv.1 self.hashmap_.slots = none := by
    intro kv hkv
    exact hfresh kv.1 (by rw [← hk1]; exact List.mem_map_of_mem Prod.fst hkv)
  -- first insertion
  have hins1 := insertRows_fresh self.hashmap_.capacity (ks.zip vs1) self.hashmap_.slots
    (by rw [hk1]; exact hdist) hf1 (by rw [hl1]; exact hcap)
  rw [hl1] at hins1
  have hI1 := SpecInsert_ok env self coords values1 trace N _ _ _ h1 hins1
  -- where the keys are afterwards
  have hfound := findSlot_after_insert (ks.zip vs1) self.hashmap_.slots
    (by rw [hk1]; exact hdist) hf1
  rw [hk1, hl1] at hfound
  set slots1 := self.hashmap_.slots ++ ks.zip vs1 with hslots1
  have hsome : ∀ k ∈ ks, (findSlot k slots1).isSome = true := by
    intro k hk
    have hmem : findSlot k slots1 ∈ List.map some (List.range' self.hashmap_.slots.length N) := by
      rw [← hfound]
      exact List.mem_map_of_mem (fun k => findSlot k slots1) hk
    obtain ⟨j, _, hj⟩ := List.mem_map.mp hmem
    rw [← hj]
    rfl
  -- second insertion
  have hins2 := insertRows_present self.hashmap_.capacity (ks.zip vs2) slots1
    (by
      intro kv hkv
      exact hsome kv.1 (by rw [← hk2]; exact List.mem_map_of_mem Prod.fst hkv))
  rw [hl2] at hins2
  obtain ⟨b1, hb1⟩ : ∃ b1 : HashBackend, b1 = { self.hashmap_ with slots := slots1 } := ⟨_, rfl⟩
  obtain ⟨self1, hself1⟩ : ∃ s : TensorHash HashBackend, s = { self with hashmap_ := b1 } :=
    ⟨_, rfl⟩
  have hI1' : TensorHash.Insert env (SpecBackend env) self coords values1 trace
      = (.ok ({ Tensor.New env [N, self.key_dim_] self.key_type_ coords.GetDevice with
                blob := unpackRows slots1 Prod.fst (List.range' self.hashmap_.slots.length N)
                  (List.replicate N true) self.hashmap_.key_size N
                  (Tensor.New env [N, self.key_dim_] self.key_type_ coords.GetDevice).blob },
              { Tensor.New env [N] Dtype.Bool coords.GetDevice with
                blob := maskBytes (List.replicate N true) }),
         self1,
         trace ++ [Call.Malloc ((env.sizeof_iterator_t * N) % SIZE_MOD) coords.GetDevice,
           Call.Insert N, Call.UnpackIterators true false N, Call.Free coords.GetDevice]) := by
    rw [hself1, hb1]; exact hI1
  have h2' : TensorHash.InsertChecks (SpecBackend env) self1 coords values2 = .ok N := by
    rw [hself1, hb1]; exact h2
  have hins2' : insertRows self1.hashmap_.capacity self1.hashmap_.slots
      ((rowsOf coords.blob self1.hashmap_.key_size N).zip
        (rowsOf values2.blob self1.hashmap_.value_size N))
      = (.ok ((ks.zip vs2).map (fun kv => (findSlot kv.1 slots1).getD 0),
              List.replicate N false), slots1) := by
    rw [hself1, hb1]; exact hins2
  have hI2 := SpecInsert_ok env self1 coords values2
    (trace ++ [Call.Malloc ((env.sizeof_iterator_t * N) % SIZE_MOD) coords.GetDevice,
      Call.Insert N, Call.UnpackIterators true false N, Call.Free coords.GetDevice])
    N _ _ _ h2' hins2'
  have hself2 : ({ self1 with hashmap_ := { self1.hashmap_ with slots := slots1 } }
      : TensorHash HashBackend) = self1 := by
    rw [hself1, hb1]
  rw [hself2] at hI2
  -- the query
  have hq : TensorHash.QueryChecks (SpecBackend env) self1 coords = .ok N := by
    obtain ⟨hd, hc, ht, hs, _⟩ :=
      (InsertChecks_ok_iff (SpecBackend env) self1 coords values2 N).1 h2'
    refine (QueryChecks_ok_iff _ _ coords N).2 ⟨hd, ?_, ?_, hs⟩
    · cases hcc : coords.IsContiguous with
      | true => rfl
      | false => exact absurd (Or.inl hcc) hc
    · by_contra hne
      exact ht (Or.inl hne)
  have hQ := SpecQuery_ok env self1 coords
    ((trace ++ [Call.Malloc ((env.sizeof_iterator_t * N) % SIZE_MOD) coords.GetDevice,
      Call.Insert N, Call.UnpackIterators true false N, Call.Free coords.GetDevice]) ++
      [Call.Malloc ((env.sizeof_iterator_t * N) % SIZE_MOD) coords.GetDevice,
      Call.Insert N, Call.UnpackIterators true false N, Call.Free coords.GetDevice])
    N hq
  have hfr : findRows self1.hashmap_.slots (rowsOf coords.blob self1.hashmap_.key_size N)
      = (List.range' self.hashmap_.slots.length N, List.replicate N true) := by
    have hs1 : self1.hashmap_.slots = slots1 := by rw [hself1, hb1]
    have hs2 : rowsOf coords.blob self1.hashmap_.key_size N = ks := by rw [hself1, hb1]
    rw [hs1, hs2]
    unfold findRows
    have e1 := congrArg (List.map (fun o : Option Nat => o.getD 0)) hfound
    have e2 := congrArg (List.map (fun o : Option Nat => o.isSome)) hfound
    simp only [List.map_map, Function.comp_def, Option.getD_some, Option.isSome_some,
      List.map_id'] at e1 e2
    rw [e1, e2]
    simp [List.map_const', hks, length_rowsOf]
  refine ⟨_, _, _, _, _, _, _, _, _, _, _, _, hI1', rfl, maskBytes_replicate_true N,
    hI2, rfl, maskBytes_replicate_false N, hQ, rfl, ?_, ?_⟩
  · simp only [hfr]
    exact maskBytes_replicate_true N
  · simp only [hfr]
    have hs1 : self1.hashmap_.slots = self.hashmap_.slots ++ ks.zip vs1 := by
      rw [hself1, hb1]
    have hsz : self1.hashmap_.value_size = self.hashmap_.value_size := by rw [hself1, hb1]
    have hu := unpackRows_all self.hashmap_.slots (ks.zip vs1) Prod.snd
      self.hashmap_.value_size
      (Tensor.New env [N, self1.value_dim_] self1.value_type_ coords.GetDevice).blob
    rw [hl1, hv1] at hu
    rw [hs1, hsz, hu]
    exact flatten_rowsOf _ _ _ hlen

/-- C15, amended, at a concrete input: the index that the constructor builds,
without inserting, from 4 key rows has room for 2 entries; two distinct key
rows are inserted twice and queried. -/
theorem insert_twice_then_query_witness :
    (TensorHash.Construct sampleEnv (SpecBackend sampleEnv)
        (Tensor.FromInt64 [1, 2, 3, 4, 5, 6, 7, 8, 9, 10, 11, 12] [4, 3] cpu0)
        (Tensor.FromInt64 [0, 1, 2, 3] [4] cpu0) false []).1 = .ok (emptyIndex 2 3) ∧
    ∃ keys1 mask1 index1 trace1 keys2 mask2 index2 trace2 vals mask3 index3 trace3,
      TensorHash.Insert sampleEnv (SpecBackend sampleEnv) (emptyIndex 2 3) twoKeys twoValues []
        = (.ok (keys1, mask1), index1, trace1) ∧
      mask1.GetShape = [2] ∧ mask1.blob = List.replicate 2 1 ∧
      TensorHash.Insert sampleEnv (SpecBackend sampleEnv) index1 twoKeys
          (Tensor.FromInt64 [30, 40] [2] cpu0) trace1
        = (.ok (keys2, mask2), index2, trace2) ∧
      mask2.GetShape = [2] ∧ mask2.blob = List.replicate 2 0 ∧
      TensorHash.Query sampleEnv (SpecBackend sampleEnv) index2 twoKeys trace2
        = (.ok (vals, mask3), index3, trace3) ∧
      mask3.GetShape = [2] ∧ mask3.blob = List.replicate 2 1 ∧
      vals.blob = twoValues.blob :=
  ⟨by decide,
   insert_twice_then_query sampleEnv (emptyIndex 2 3) twoKeys twoValues
     (Tensor.FromInt64 [30, 40] [2] cpu0) [] 2 (by decide) (by decide) (by decide)
     (by decide) (by decide) (by decide)⟩

end Idempotence

/-! ## A backend error inside `Insert` -/

section BackendError

/-- C16 at a concrete input: on the index of capacity 1 that the constructor
builds from two key rows, `Insert` of the two distinct rows allocates its
scratch buffer, the backend `Insert` raises `CapacityExceeded`, and the call ends
with one `Malloc` and no `Free`. -/
theorem scratch_buffer_calls_per_exit_path_witness :
    TensorHash.Insert sampleEnv (SpecBackend sampleEnv) (emptyIndex 1 3) twoKeys twoValues []
      = (.raised (.Backend .CapacityExceeded),
         { emptyIndex 1 3 with hashmap_ :=
            { (emptyIndex 1 3).hashmap_ with
              slots := [(rowOf twoKeys.blob 24 0, rowOf twoValues.blob 8 0)] } },
         [Call.Malloc 16 cpu0, Call.Insert 2]) ∧
    mallocCount (TensorHash.Insert sampleEnv (SpecBackend sampleEnv) (emptyIndex 1 3) twoKeys
        twoValues []).2.2 = mallocCount [] + 1 ∧
    freeCount (TensorHash.Insert sampleEnv (SpecBackend sampleEnv) (emptyIndex 1 3) twoKeys
        twoValues []).2.2 = freeCount [] :=
  ⟨by decide,
   (scratch_buffer_calls_per_exit_path sampleEnv (SpecBackend sampleEnv) (emptyIndex 1 3)
      twoKeys twoValues []).1.2.2 .CapacityExceeded (by decide)⟩

end BackendError

/-! ## The arrays that `Insert` and `Query` return -/

section Results

variable {β ι : Type}

/-- C21: on every normal return over keys of shape `[N, key_dim_]`, `Insert`
returns a keys array of shape `[N, key_dim_]` and of the stored key element
type, and `Query` returns a values array of shape `[N, value_dim_]` and of the
stored value element type, both on the device of the keys array. The values
array is of rank 2 also on an index that the constructor built from values of
rank 1: there `value_dim_` is 1 and the shape is `[N, 1]`. -/
theorem insert_and_query_result_arrays (env : Env) (ops : BackendOps β ι) :
    (∀ (self : TensorHash β) (coords values : Tensor) (trace : List Call) (r : Tensor × Tensor),
      (TensorHash.Insert env ops self coords values trace).1 = .ok r →
      ∃ N, coords.GetShape = [N, self.key_dim_] ∧
        r.1.GetShape = [N, self.key_dim_] ∧ r.1.GetDtype = self.key_type_ ∧
        r.1.GetDevice = coords.GetDevice) ∧
    (∀ (self : TensorHash β) (coords : Tensor) (trace : List Call) (r : Tensor × Tensor),
      (TensorHash.Query env ops self coords trace).1 = .ok r →
      ∃ N, coords.GetShape = [N, self.key_dim_] ∧
        r.1.GetShape = [N, self.value_dim_] ∧ r.1.GetDtype = self.value_type_ ∧
        r.1.GetDevice = coords.GetDevice) ∧
    (∀ (coords0 values0 : Tensor) (insert : Bool) (trace0 : List Call) (h : TensorHash β),
      (TensorHash.Construct env ops coords0 values0 insert trace0).1 = .ok h →
      values0.GetShape.length = 1 →
      h.value_dim_ = 1 ∧ h.value_type_ = values0.GetDtype ∧
      ∀ (coords : Tensor) (trace : List Call) (r : Tensor × Tensor),
        (TensorHash.Query env ops h coords trace).1 = .ok r →
        ∃ N, coords.GetShape = [N, h.key_dim_] ∧
          r.1.GetShape = [N, 1] ∧ r.1.GetDtype = values0.GetDtype ∧
          r.1.GetDevice = coords.GetDevice) := by
  have hQ : ∀ (self : TensorHash β) (coords : Tensor) (trace : List Call)
      (r : Tensor × Tensor),
      (TensorHash.Query env ops self coords trace).1 = .ok r →
      ∃ N, coords.GetShape = [N, self.key_dim_] ∧
        r.1.GetShape = [N, self.value_dim_] ∧ r.1.GetDtype = self.value_type_ ∧
        r.1.GetDevice = coords.GetDevice := by
    intro self coords trace r h
    obtain ⟨N, hN, hs, ht, hd, _⟩ := Query_ok_mask env ops self coords trace r h
    exact ⟨N, ((QueryChecks_ok_iff ops self coords N).1 hN).2.2.2, hs, ht, hd⟩
  refine ⟨?_, hQ, ?_⟩
  · intro self coords values trace r h
    obtain ⟨N, hN, hs, ht, hd, _⟩ := Insert_ok_mask env ops self coords values trace r h
    exact ⟨N, ((InsertChecks_ok_iff ops self coords values N).1 hN).2.2.2.1, hs, ht, hd⟩
  · intro coords0 values0 insert trace0 h hC hrank
    obtain ⟨info, hchk, _, hvt, _, hvd⟩ :=
      Construct_ok_info env ops coords0 values0 insert trace0 h hC
    obtain ⟨_, _, hv, _, hvt2, _⟩ := ConstructChecks_ok_info env coords0 values0 info hchk
    have h1 : h.value_dim_ = 1 := by
      unfold valueDim at hv
      rw [if_pos hrank] at hv
      rw [hvd]
      exact (Option.some.inj hv).symm
    have h2 : h.value_type_ = values0.GetDtype := by rw [hvt, hvt2]
    refine ⟨h1, h2, ?_⟩
    intro coords trace r hr
    obtain ⟨N, hs, hshape, ht, hd⟩ := hQ h coords trace r hr
    exact ⟨N, hs, by rw [hshape, h1], by rw [ht, h2], hd⟩

/-- C21 at a concrete input: the index that the constructor builds from keys of
shape `[2, 3]` and values of shape `[2]` has `value_dim_` 1, and a `Query` of 2
key rows on it returns values of shape `[2, 1]`. -/
theorem insert_and_query_result_arrays_witness :
    (TensorHash.Construct sampleEnv Recorder (sampleTensor [2, 3] .Int64)
        (sampleTensor [2] .Int32) false []).1
      = .ok { hashmap_ := (cpu0, [Call.CreateDefaultHashmap 1 24 4 cpu0]),
              key_type_ := .Int64, value_type_ := .Int32, key_dim_ := 3, value_dim_ := 1 } ∧
    (TensorHash.Query sampleEnv Recorder
        { hashmap_ := (cpu0, [Call.CreateDefaultHashmap 1 24 4 cpu0]),
          key_type_ := .Int64, value_type_ := .Int32, key_dim_ := 3, value_dim_ := 1 }
        (sampleTensor [2, 3] .Int64) []).1
      = .ok (Tensor.New sampleEnv [2, 1] .Int32 cpu0,
             { Tensor.New sampleEnv [2] .Bool cpu0 with blob := [1, 1] }) ∧
    ∃ N, (sampleTensor [2, 3] .Int64).GetShape = [N, 3] ∧
      (Tensor.New sampleEnv [2, 1] .Int32 cpu0).GetShape = [N, 1] ∧
      (Tensor.New sampleEnv [2, 1] .Int32 cpu0).GetDtype = (sampleTensor [2] .Int32).GetDtype ∧
      (Tensor.New sampleEnv [2, 1] .Int32 cpu0).GetDevice
        = (sampleTensor [2, 3] .Int64).GetDevice :=
  ⟨by decide, by decide,
   ((insert_and_query_result_arrays sampleEnv Recorder).2.2
      (sampleTensor [2, 3] .Int64) (sampleTensor [2] .Int32) false []
      { hashmap_ := (cpu0, [Call.CreateDefaultHashmap 1 24 4 cpu0]),
        key_type_ := .Int64, value_type_ := .Int32, key_dim_ := 3, value_dim_ := 1 }
      (by decide) (by decide)).2.2
      (sampleTensor [2, 3] .Int64) []
      (Tensor.New sampleEnv [2, 1] .Int32 cpu0,
        { Tensor.New sampleEnv [2] .Bool cpu0 with blob := [1, 1] })
      (by decide)⟩

end Results

namespace core

/-- C22: on a slice key `UpdateWithDimSize` is idempotent and the first
`dim_size` wins: for every `Slice(start, stop, step)` and all `d1`, `d2`, the key
returned for `d1` is returned unchanged when updated again with `d2`, so its
start, stop and step are the same. -/
theorem update_with_dim_size_is_idempotent (start stop step : Option Int) (d1 d2 : Int) :
    ∃ k1 : TensorKey,
      (TensorKey.Slice start stop step).UpdateWithDimSize d1 = .ok k1 ∧
      k1.UpdateWithDimSize d2 = .ok k1 ∧
      (∀ k2, k1.UpdateWithDimSize d2 = .ok k2 →
        k2.GetStart = k1.GetStart ∧ k2.GetStop = k1.GetStop ∧ k2.GetStep = k1.GetStep) ∧
      k1.GetStart = .ok (start.getD 0) ∧ k1.GetStop = .ok (stop.getD d1) ∧
      k1.GetStep = .ok (step.getD 1) := by
  have hk : (TensorKey.Slice start stop step).UpdateWithDimSize d1
      = .ok (TensorKey.Slice (some (start.getD 0)) (some (stop.getD d1))
          (some (step.getD 1))) := by
    cases start <;> cases stop <;> cases step <;> rfl
  refine ⟨_, hk, rfl, ?_, rfl, rfl, rfl⟩
  intro k2 h2
  have : k2 = TensorKey.Slice (some (start.getD 0)) (some (stop.getD d1))
      (some (step.getD 1)) := by
    have h3 : (TensorKey.Slice (some (start.getD 0)) (some (stop.getD d1))
        (some (step.getD 1))).UpdateWithDimSize d2
        = .ok (TensorKey.Slice (some (start.getD 0)) (some (stop.getD d1))
          (some (step.getD 1))) := rfl
    rw [h3] at h2
    exact (Outcome.ok.inj h2).symm
  subst this
  exact ⟨rfl, rfl, rfl⟩

end core

end open3d
